import Mathlib

/-!
Shallow embedding of the e6aibot2 replacement-request coordinator.

The definitions below are translated from the repository's JavaScript
source.  Each definition carries a comment naming the source file and
the lines it embeds.  Machine integers are modelled as `Nat` (all the
quantities involved are timestamps and durations; JavaScript number
semantics agree with `Nat` on the comparisons the code performs, which
is noted at each subtraction).  The single-threaded event loop is
modelled by presenting each command handler as a pure state-transition
function over the in-memory coordinator state; external calls (Discord,
the e6AI HTTP API) are suspension points whose results are supplied by
an environment record, one field per call site.
-/

namespace E6Bot

/-! ## Association-list model of a JavaScript `Map` with string keys

`activeRequests` in src/src/utils/handleDecline.js line 8 is a
`Map` keyed by `"${postId}:${userId}"`.  A JS `Map` preserves insertion
order; `set` overwrites in place, `delete` removes.  We model it as an
ordered association list. -/

abbrev AList (α : Type) : Type := List (String × α)

namespace AList

def lookup {α : Type} (m : AList α) (k : String) : Option α :=
  (List.find? (fun kv => kv.1 == k) m).map (·.2)

def hasKey {α : Type} (m : AList α) (k : String) : Bool :=
  List.any m (fun kv => kv.1 == k)

/-- `Map.prototype.set`: overwrite in place if the key exists, else append. -/
def set {α : Type} (m : AList α) (k : String) (v : α) : AList α :=
  if hasKey m k then
    List.map (fun kv => if kv.1 == k then (k, v) else kv) m
  else
    m ++ [(k, v)]

/-- `Map.prototype.delete`. -/
def del {α : Type} (m : AList α) (k : String) : AList α :=
  List.filter (fun kv => !(kv.1 == k)) m

theorem lookup_set_self {α : Type} (m : AList α) (k : String) (v : α) :
    lookup (set m k v) k = some v := by
  unfold set
  by_cases h : hasKey m k
  · simp only [h, if_pos]
    unfold lookup
    induction m with
    | nil => simp [hasKey] at h
    | cons kv rest ih =>
      by_cases hk : kv.1 == k
      · simp [List.find?, hk]
      · simp only [List.map_cons, hk, Bool.false_eq_true, if_false]
        have hrest : hasKey rest k := by
          simp [hasKey] at h ⊢
          rcases h with h1 | h2
          · exact absurd (by simpa using h1) (by simpa using hk)
          · exact h2
        have := ih hrest
        simpa [List.find?, hk] using this
  · simp only [h, if_neg, Bool.false_eq_true, not_false_iff]
    unfold lookup
    induction m with
    | nil => simp [List.find?]
    | cons kv rest ih =>
      by_cases hk : kv.1 == k
      · exact absurd (by simp [hasKey, hk]) h
      · have hrest : ¬ hasKey rest k := by
          intro hr
          exact h (by simp [hasKey] at hr ⊢; right; exact hr)
        have := ih hrest
        simpa [List.find?, hk] using this

theorem lookup_del_self {α : Type} (m : AList α) (k : String) :
    lookup (del m k) k = none := by
  unfold del lookup
  induction m with
  | nil => simp
  | cons kv rest ih =>
    by_cases hk : kv.1 == k
    · simpa [List.filter, hk] using ih
    · simp only [List.filter, hk]
      simpa [List.find?, hk] using ih

theorem hasKey_del_self {α : Type} (m : AList α) (k : String) :
    hasKey (del m k) k = false := by
  unfold del hasKey
  induction m with
  | nil => simp
  | cons kv rest ih =>
    by_cases hk : kv.1 == k
    · simpa [List.filter, hk] using ih
    · simp only [List.filter, hk]
      simpa [List.any, hk] using ih

end AList

/-! ## Set model of `requestLocks`

`requestLocks` (src/src/utils/handleDecline.js line 9) is a JS `Set`
of post-id strings.  `Set.add` is a no-op when present, `delete`
removes, `has` tests membership. -/

abbrev LockSet : Type := List String

namespace LockSet

def hasLock (s : LockSet) (x : String) : Bool := List.any s (fun y => y == x)

def add (s : LockSet) (x : String) : LockSet :=
  if hasLock s x then s else s ++ [x]

def del (s : LockSet) (x : String) : LockSet :=
  List.filter (fun y => !(y == x)) s

theorem hasLock_del_self (s : LockSet) (x : String) :
    hasLock (del s x) x = false := by
  unfold del hasLock
  induction s with
  | nil => simp
  | cons y rest ih =>
    by_cases hy : y == x
    · simpa [List.filter, hy] using ih
    · simp only [List.filter, hy]
      simpa [List.any, hy] using ih

theorem not_mem_del_self (s : LockSet) (x : String) :
    x ∉ del s x := by
  intro hmem
  unfold del at hmem
  have := List.of_mem_filter hmem
  simp at this

end LockSet

/-- Character-list prefix test; `strStarts s pat` models JavaScript
`s.startsWith(pat)`. -/
def listStarts : List Char → List Char → Bool
  | [], _ => true
  | _ :: _, [] => false
  | a :: as, b :: bs => a == b && listStarts as bs

def strStarts (s pat : String) : Bool := listStarts pat.toList s.toList

/-- Character-list containment test. -/
def listInfx (pat : List Char) : List Char → Bool
  | [] => listStarts pat []
  | c :: cs => listStarts pat (c :: cs) || listInfx pat cs

/-- Substring test used for `msg.content.includes(postId)`. -/
def strIncludes (s sub : String) : Bool :=
  listInfx sub.toList s.toList

/-- JS `\s` (ASCII portion; the Unicode space code points play no role
in any input considered here). -/
def jsWs (c : Char) : Bool :=
  c == ' ' || c == '\t' || c == '\n' || c == '\r' || c == '\x0b' || c == '\x0c'

/-- `String.prototype.trim` (ASCII whitespace portion). -/
def jsTrim (s : List Char) : List Char :=
  ((s.dropWhile jsWs).reverse.dropWhile jsWs).reverse

/-- `String.prototype.split` with a single-character separator:
`"a:b".split(':') = ["a","b"]`, `"".split(':') = [""]`,
`":".split(':') = ["", ""]`. -/
def splitOnChar (sep : Char) : List Char → List (List Char)
  | [] => [[]]
  | c :: cs =>
    if c == sep then [] :: splitOnChar sep cs
    else
      match splitOnChar sep cs with
      | [] => [[c]]
      | g :: gs => (c :: g) :: gs

def strSplit (s : String) (sep : Char) : List String :=
  (splitOnChar sep s.toList).map String.mk

/-- ASCII case folding, modelling `String.prototype.toLowerCase` /
`toUpperCase` on the ASCII inputs the code applies them to. -/
def lowerChar (c : Char) : Char :=
  if 'A' ≤ c && c ≤ 'Z' then Char.ofNat (c.toNat + 32) else c

def upperChar (c : Char) : Char :=
  if 'a' ≤ c && c ≤ 'z' then Char.ofNat (c.toNat - 32) else c

def strToLower (s : String) : String := String.mk (s.toList.map lowerChar)

def strToUpper (s : String) : String := String.mk (s.toList.map upperChar)

/-- `s.endsWith(pat)`. -/
def strEnds (s pat : String) : Bool :=
  listStarts pat.toList.reverse s.toList.reverse

/-! ## Core data model

`activeRequests` values, src/src/utils/handleDecline.js line 8 and the
record registered at src/src/commands/knowledgebase.js lines 454-461
(`requestreplace` implementation):
`{ mainMessageId, replacementImageMessageId, originalImageMessageId,
   timestamp, status, channelId }`.  `status` is the literal string
`"pending"`; timestamps are `Date.now()` values. -/

structure RequestRecord where
  mainMessageId : String
  replacementImageMessageId : String
  originalImageMessageId : Option String
  timestamp : Nat
  status : String
  channelId : String
deriving Repr, DecidableEq

/-- The process-wide coordinator singletons: `activeRequests` and
`requestLocks` (src/src/utils/handleDecline.js lines 8-9). -/
structure CoordState where
  active : AList RequestRecord
  locks : LockSet
deriving Repr, DecidableEq

/-- `` `${postId}:${userId}` `` — the request key built at
src/src/commands/knowledgebase.js line 322 and
src/src/utils/handleDecline.js lines 273, 519. -/
def requestKey (postId userId : String) : String :=
  postId ++ ":" ++ userId

/-- `key.split(':')[0]` — src/src/utils/handleDecline.js line 882. -/
def keyPost (key : String) : String :=
  (strSplit key ':').headD ""

/-! ## Stale sweep

`cleanupStaleLocks`, src/src/utils/handleDecline.js lines 847-894.
Runs on a 5-minute `setInterval` (line 900). -/

/-- `15 * 60 * 1000` — src/src/utils/handleDecline.js line 849. -/
def staleThresholdMs : Nat := 15 * 60 * 1000

/-- First loop of `cleanupStaleLocks` (lines 854-871): a lock is kept
exactly when some `activeRequests` key starts with `` `${postId}:` ``.
Deleting the element currently under iteration from a JS `Set` does not
disturb the iteration, so the loop is a filter. -/
def sweepLocksPhase (active : AList RequestRecord) (locks : LockSet) : LockSet :=
  List.filter (fun postId => List.any active (fun kv => strStarts kv.1 (postId ++ ":"))) locks

/-- `now - request.timestamp > staleThreshold` (line 876).  JS computes a
possibly negative difference which then fails the `>`; `Nat`
subtraction truncates to `0`, which also fails it, so the two agree. -/
def isStaleEntry (now : Nat) (kv : String × RequestRecord) : Bool :=
  decide (now - kv.2.timestamp > staleThresholdMs)

/-- Second loop of `cleanupStaleLocks` (lines 874-889): every stale
entry is deleted, and the lock for `key.split(':')[0]` is released.
Deleting the entry under iteration and deleting from the (separate)
lock set do not disturb the map iteration, so the loop is again a pair
of filters over the phase-1 results. -/
def cleanupStaleLocks (now : Nat) (st : CoordState) : CoordState :=
  let locks1 := sweepLocksPhase st.active st.locks
  let stale := List.filter (isStaleEntry now) st.active
  { active := List.filter (fun kv => !(isStaleEntry now kv)) st.active
    locks := List.filter (fun p => !(List.any stale (fun kv => keyPost kv.1 == p))) locks1 }

/-! ## Rate limiter

`RateLimiter`, src/index.js lines 553-702 (appended rateLimiter module).
`this.rateLimits` is a `Map` of `userId -> expiry` timestamps. -/

abbrev RateMap : Type := AList Nat

namespace RateLimiter

/-- `isRateLimited(userId)` — src/index.js lines 615-626.  Returns the
boolean answer together with the possibly pruned map (the expired or
absent entry is `delete`d before returning `false`). -/
def isRateLimited (now : Nat) (m : RateMap) (userId : String) : Bool × RateMap :=
  match AList.lookup m userId with
  | none => (false, AList.del m userId)
  | some expiry =>
    if expiry ≤ now then (false, AList.del m userId)
    else (true, m)

/-- `setRateLimit(userId, durationMs)` — src/index.js lines 636-640
(`expiry = Date.now() + durationMs`). -/
def setRateLimit (now : Nat) (m : RateMap) (userId : String) (durationMs : Nat) : RateMap :=
  AList.set m userId (now + durationMs)

/-- `loadRateLimits` — src/index.js lines 583-603: the persisted
`userId -> expiry` object is re-inserted entry by entry, keeping only
`expiry > now`. -/
def loadRateLimits (now : Nat) (stored : List (String × Nat)) : RateMap :=
  List.filter (fun kv => decide (kv.2 > now)) stored

end RateLimiter

/-! ## Button-interaction router

`client.on(Events.InteractionCreate, ...)`, button branch,
src/src/commands/linklisten.js lines 200-284 (appended index
implementation). -/

/-- What the router does with a button interaction. -/
inductive RouteAction where
  | unauthorizedReply
  | showDeclineModal (postId userId : String)
  | processAccept (customId : String)
  | handleUndeletePost (postId moderatorId : String)
  | ignored
deriving Repr, DecidableEq

/-- The button branch of the interaction handler
(src/src/commands/linklisten.js lines 200-284):
the authorization rejection (lines 206-214) fires only for
`decline_request:` / `accept_request:` identifiers; the
`undelete_post:` dispatch (lines 260-281) is reached without it.
`DiscordIDs.length > 0` is `!ids.isEmpty`; `DiscordIDs.includes` is
`List.contains`; the `undelete_post` ids are destructured as
`const [, postId, moderatorId] = customId.split(':')` (line 264). -/
def routeButton (DiscordIDs : List String) (userId customId : String) : RouteAction :=
  if (!DiscordIDs.isEmpty && !(DiscordIDs.contains userId))
      && (strStarts customId "decline_request:" || strStarts customId "accept_request:") then
    .unauthorizedReply
  else if strStarts customId "decline_request:" then
    .showDeclineModal ((strSplit customId ':').getD 1 "") ((strSplit customId ':').getD 2 "")
  else if strStarts customId "accept_request:" then
    .processAccept customId
  else if strStarts customId "undelete_post:" then
    .handleUndeletePost ((strSplit customId ':').getD 1 "") ((strSplit customId ':').getD 2 "")
  else
    .ignored

/-- Recogniser for the undelete dispatch, used to state C5 without
fixing the parsed components. -/
def RouteAction.isUndeleteDispatch : RouteAction → Bool
  | .handleUndeletePost _ _ => true
  | _ => false

/-! ## Posts (e6AI content items)

The fields of the API post object that the coordinator reads:
`post.file?.url`, `post.flags?.deleted`, `post.flags?.pending`,
`post.rating`, `post.tags?.general`.  Optional chaining is modelled
with `Option` / default values. -/

structure Post where
  /-- `post.file?.url`; `none` when the post has no file URL. -/
  fileUrl : Option String
  /-- `post.flags?.deleted` (falsy when absent). -/
  deleted : Bool
  /-- `post.flags?.pending` (falsy when absent). -/
  pending : Bool
  rating : String
  /-- `post.tags?.general` (empty when absent). -/
  tagsGeneral : List String
deriving Repr, DecidableEq

/-- `config.tagsToFilter.flatMap(tag => tag.split(',').map(t => t.trim()))`
— src/src/commands/knowledgebase.js lines 389-391. -/
def filterTagList (tagsToFilter : List String) : List String :=
  tagsToFilter.flatMap (fun tag => (strSplit tag ',').map (fun t => String.mk (jsTrim t.toList)))

/-- `shouldSpoiler` — src/src/commands/knowledgebase.js lines 392-393:
`filterTags.length > 0 && post.tags?.general?.some(tag => filterTags.includes(tag))`. -/
def shouldSpoiler (tagsToFilter : List String) (post : Post) : Bool :=
  let filterTags := filterTagList tagsToFilter
  !filterTags.isEmpty && post.tagsGeneral.any (fun tag => filterTags.contains tag)

/-! ## Channel messages and embeds

The moderation channel is the durable store; the handlers re-locate
request messages by scanning its recent history
(src/src/utils/handleDecline.js lines 176-211, 334-398, 644-715).
We model the embed fields those scans inspect. -/

structure EmbedField where
  name : String
  value : String
deriving Repr, DecidableEq

structure Embed where
  title : Option String
  description : Option String
  url : Option String
  imageUrl : Option String
  footerText : Option String
  fields : List EmbedField
deriving Repr, DecidableEq

structure Msg where
  id : String
  authorId : String
  content : String
  embeds : List Embed
deriving Repr, DecidableEq

/-- Primary search predicate for the request message
(src/src/utils/handleDecline.js lines 335-341): a non-empty embed list
whose first embed has title `'🔄 Replacement Request'` and a field
`Post ID` equal to the post id. -/
def matchesRequestMessage (postId : String) (m : Msg) : Bool :=
  !m.embeds.isEmpty &&
  (match m.embeds.head? with
   | some e =>
     (e.title == some "🔄 Replacement Request") &&
     e.fields.any (fun f => f.name == "Post ID" && f.value == postId)
   | none => false)

/-- Fallback search predicate (lines 348-355): any message whose
content includes the post id, or any embed with a field whose value is
the post id or whose name is `Post ID`. -/
def matchesRequestMessageAlt (postId : String) (m : Msg) : Bool :=
  strIncludes m.content postId ||
  m.embeds.any (fun e => e.fields.any (fun f => f.value == postId || f.name == "Post ID"))

/-- `originalMessage` re-location: primary `find`, then the alternative
search (lines 334-361). -/
def findOriginalMessage (postId : String) (msgs : List Msg) : Option Msg :=
  match msgs.find? (matchesRequestMessage postId) with
  | some m => some m
  | none => msgs.find? (matchesRequestMessageAlt postId)

/-- Replacement-image message, new convention (lines 374-379): authored
by the bot, first embed titled `REPLACEMENT IMAGE` with footer
`` `For Post ID: ${postId}` ``. -/
def matchesReplacementMessage (botId postId : String) (m : Msg) : Bool :=
  (m.authorId == botId) && !m.embeds.isEmpty &&
  (match m.embeds.head? with
   | some e =>
     (e.title == some "REPLACEMENT IMAGE") &&
     (e.footerText == some ("For Post ID: " ++ postId))
   | none => false)

/-- Fallback for older records (lines 384-390): a bot message in the
five messages fetched before the request message, titled
`REPLACEMENT IMAGE` or `REPLACEMENT IMAGE:`, carrying an embed image. -/
def matchesReplacementFallback (botId : String) (m : Msg) : Bool :=
  (m.authorId == botId) && !m.embeds.isEmpty &&
  (match m.embeds.head? with
   | some e =>
     ((e.title == some "REPLACEMENT IMAGE") || (e.title == some "REPLACEMENT IMAGE:")) &&
     e.imageUrl.isSome
   | none => false)

/-- Replacement-image re-location (lines 374-391): primary search over
the history, then the fallback over the window fetched before the
request message. -/
def findReplacementMessage (botId postId : String) (msgs msgsBefore : List Msg) : Option Msg :=
  match msgs.find? (matchesReplacementMessage botId postId) with
  | some m => some m
  | none => msgsBefore.find? (matchesReplacementFallback botId)

/-- Original-image message located during cleanup (lines 503-508):
bot-authored, titled `ORIGINAL IMAGE:` or `ORIGINAL IMAGE (DELETED):`,
with embed url `` `https://e6ai.net/posts/${postId}` ``. -/
def matchesOriginalImageMessage (botId postId : String) (m : Msg) : Bool :=
  (m.authorId == botId) && !m.embeds.isEmpty &&
  (match m.embeds.head? with
   | some e =>
     ((e.title == some "ORIGINAL IMAGE:") || (e.title == some "ORIGINAL IMAGE (DELETED):")) &&
     (e.url == some ("https://e6ai.net/posts/" ++ postId))
   | none => false)

/-! ## Embed builders used by the submit path

src/src/commands/knowledgebase.js lines 363-451 (the `requestreplace`
implementation of that file).  Interactive components (buttons) are not
part of the embeds and are not needed by any claim; each embed below is
the field-for-field image of the corresponding `EmbedBuilder` chain. -/

/-- `/^\d+$/.test(postId)` — src/src/commands/knowledgebase.js line 275. -/
def isNumericStr (s : String) : Bool :=
  !(s == "") && s.toList.all Char.isDigit

/-- Attachment fields consulted by the validators. -/
structure Attachment where
  url : String
  name : String
  size : Nat
deriving Repr, DecidableEq

/-- `validateFileSize` — src/src/utils/discordRetry.js lines 18-36
(`.valid` flag; an absent or zero `size` is falsy and invalid, and the
conservative 8 MB limit applies). -/
def validateFileSize (att : Attachment) : Bool :=
  !(att.size == 0) && !(att.size > 8 * 1024 * 1024)

/-- `validateFileType` — src/src/utils/discordRetry.js lines 43-60
(`.valid` flag; empty name is falsy and invalid; the lower-cased name
must end with an allowed image extension). -/
def validateFileType (att : Attachment) : Bool :=
  !(att.name == "") &&
  [".png", ".jpg", ".jpeg", ".gif", ".webp"].any
    (fun ext => strEnds (strToLower att.name) ext)

/-- Rating field text — src/src/commands/knowledgebase.js line 417. -/
def ratingText (rating : String) : String :=
  if strToUpper rating == "E" then "🔞 Explicit"
  else if strToUpper rating == "Q" then "⚠️ Questionable"
  else if strToUpper rating == "S" then "✅ Safe"
  else "Unknown"

/-- Status field text — src/src/commands/knowledgebase.js line 418. -/
def statusText (deleted pending : Bool) : String :=
  if deleted then "🗑️ Deleted" else if pending then "⏳ Pending" else "✅ Approved"

/-- Replacement-image embed — lines 364-367 (image set at 371 or 380). -/
def buildReplacementEmbed (postId image : String) : Embed :=
  { title := some "REPLACEMENT IMAGE"
    description := none
    url := none
    imageUrl := some image
    footerText := some ("For Post ID: " ++ postId)
    fields := [] }

/-- Original-image embed — lines 397-402. -/
def buildOriginalEmbed (deleted : Bool) (postId fileUrl : String) : Embed :=
  { title := some (if deleted then "ORIGINAL IMAGE (DELETED):" else "ORIGINAL IMAGE:")
    description := none
    url := some ("https://e6ai.net/posts/" ++ postId)
    imageUrl := some fileUrl
    footerText := none
    fields := [] }

/-- Main request embed — lines 409-421. -/
def buildRequestEmbed (post : Post) (postId displayName userId reason : String) : Embed :=
  { title := some "🔄 Replacement Request"
    description := some ("A replacement has been requested for post #" ++ postId)
    url := none
    imageUrl := none
    footerText := none
    fields :=
      [ ⟨"Post ID", postId⟩
      , ⟨"Requested by", displayName ++ " (" ++ userId ++ ")"⟩
      , ⟨"Reason", reason⟩
      , ⟨"Current Rating", ratingText post.rating⟩
      , ⟨"Current Status", statusText post.deleted post.pending⟩ ] }

/-! ## Submit

`execute` of the `requestreplace` command,
src/src/commands/knowledgebase.js lines 243-495.  Every `await` of an
external call is a suspension point; the environment below records the
result of each call site.  `editReply`/`deferReply` confirmations are
treated as total (their failure modes play no role in any claim). -/

/-- Result of `fetchPost.getPost` as consumed by the submit handler
(line 348-352): it may throw, or resolve; the handler additionally
guards `!postResult || !postResult.post`, kept as `nullish`. -/
inductive FetchOutcome where
  | threw
  | nullish
  | ok (post : Post)
deriving Repr, DecidableEq

/-- Result of `fetchChannelSafely` (lines 357-361): throws after retry
exhaustion, or resolves possibly to a nullish channel. -/
inductive ChanOutcome where
  | threw
  | nullish
  | ok (channelId : String)
deriving Repr, DecidableEq

structure SubmitConfig where
  /-- `config.channels && config.channels.replacementRequestChannel` truthy (line 317). -/
  channelConfigured : Bool
  /-- `config.tagsToFilter` (lines 389-391). -/
  tagsToFilter : List String
  /-- `config.DiscordIDs` (line 218). -/
  DiscordIDs : List String
deriving Repr, DecidableEq

structure SubmitInput where
  userId : String
  displayName : String
  postId : String
  reason : String
  fileAttachment : Option Attachment
  imageUrl : Option String
deriving Repr, DecidableEq

structure SubmitEnv where
  /-- Modelled outcome of the image-URL validation block (lines
  295-314): WHATWG `new URL` parsing plus the extension / Discord-host
  check, abstracted as the environment's verdict. -/
  urlValid : Bool
  fetch : FetchOutcome
  channel : ChanOutcome
  /-- `sendMessageSafely` for the replacement-image message
  (lines 372-383): the created message id, or a throw. -/
  sendReplacementId : Except Unit String
  /-- `sendMessageSafely` for the original-image message (line 403). -/
  sendOriginalId : Except Unit String
  /-- `sendMessageSafely` for the main request message (line 448). -/
  sendMainId : Except Unit String
  botId : String
deriving Repr

inductive SubmitOutcome where
  | missingMedia
  | bothMedia
  | rateLimited
  | invalidPostId
  | badFileSize
  | badFileType
  | badImageUrl
  | channelNotConfigured
  /-- Line 326-330: "You already have an active replacement request for this post." -/
  | alreadyActive
  /-- Line 334-339: "This post is currently being processed." -/
  | lockHeld
  /-- Line 350-352: `return` with an error edit; the lock is NOT released here. -/
  | postNotFound
  /-- Line 359-361: `return` with an error edit; the lock is NOT released here. -/
  | channelNotFound
  /-- The `catch` at lines 474-494: an error message is edited in and
  the lock is released (line 478; `postId` is in scope there). -/
  | errorCaught
  | success
deriving Repr, DecidableEq

structure SubmitResult where
  outcome : SubmitOutcome
  state : CoordState
  rl : RateMap
  messages : List Msg
deriving Repr, DecidableEq

/-- The body of `execute` from the lock acquisition onwards
(lines 342-494), split out so the validation prefix stays readable.
`locks1` already contains `postId`. -/
def submitLocked (cfg : SubmitConfig) (inp : SubmitInput) (env : SubmitEnv)
    (now : Nat) (st : CoordState) (rl1 : RateMap) (locks1 : LockSet) : SubmitResult :=
  let key := requestKey inp.postId inp.userId
  match env.fetch with
  | .threw =>
    -- catch (lines 474-494): release lock, report error
    { outcome := .errorCaught
      state := { active := st.active, locks := LockSet.del locks1 inp.postId }
      rl := rl1, messages := [] }
  | .nullish =>
    -- lines 350-352: early return, lock still held
    { outcome := .postNotFound
      state := { active := st.active, locks := locks1 }
      rl := rl1, messages := [] }
  | .ok post =>
    match env.channel with
    | .threw =>
      { outcome := .errorCaught
        state := { active := st.active, locks := LockSet.del locks1 inp.postId }
        rl := rl1, messages := [] }
    | .nullish =>
      -- lines 359-361: early return, lock still held
      { outcome := .channelNotFound
        state := { active := st.active, locks := locks1 }
        rl := rl1, messages := [] }
    | .ok chanId =>
      -- 1. replacement image (lines 363-384)
      let image := match inp.fileAttachment with
        | some att => "attachment://" ++ att.name
        | none => (inp.imageUrl).getD ""
      match env.sendReplacementId with
      | .error _ =>
        { outcome := .errorCaught
          state := { active := st.active, locks := LockSet.del locks1 inp.postId }
          rl := rl1, messages := [] }
      | .ok rid =>
        let msg1 : Msg :=
          { id := rid, authorId := env.botId, content := ""
            embeds := [buildReplacementEmbed inp.postId image] }
        -- 2. original image (lines 388-404): sent when the post has a
        -- file URL and no filter tag matched
        let sendOriginal := post.fileUrl.isSome && !shouldSpoiler cfg.tagsToFilter post
        let afterOriginal : Except (List Msg) (List Msg × Option String) :=
          if sendOriginal then
            match env.sendOriginalId with
            | .error _ => .error [msg1]
            | .ok oid =>
              let msg2 : Msg :=
                { id := oid, authorId := env.botId, content := ""
                  embeds := [buildOriginalEmbed post.deleted inp.postId (post.fileUrl.getD "")] }
              .ok ([msg1, msg2], some oid)
          else
            .ok ([msg1], none)
        match afterOriginal with
        | .error sent =>
          { outcome := .errorCaught
            state := { active := st.active, locks := LockSet.del locks1 inp.postId }
            rl := rl1, messages := sent }
        | .ok (sent, origId) =>
          -- 3. main request message (lines 408-451)
          match env.sendMainId with
          | .error _ =>
            { outcome := .errorCaught
              state := { active := st.active, locks := LockSet.del locks1 inp.postId }
              rl := rl1, messages := sent }
          | .ok mid =>
            let msg3 : Msg :=
              { id := mid, authorId := env.botId, content := ""
                embeds := [buildRequestEmbed post inp.postId inp.displayName inp.userId inp.reason] }
            -- lines 453-461: register the request
            let record : RequestRecord :=
              { mainMessageId := mid
                replacementImageMessageId := rid
                originalImageMessageId := origId
                timestamp := now
                status := "pending"
                channelId := chanId }
            -- line 464: 10-minute rate limit, then line 472: release lock
            { outcome := .success
              state := { active := AList.set st.active key record
                         locks := LockSet.del locks1 inp.postId }
              rl := RateLimiter.setRateLimit now rl1 inp.userId 600000
              messages := sent ++ [msg3] }

/-- The duplicate-request window — src/src/commands/knowledgebase.js
lines 323-325: a registered record blocks a re-submit when its status
is `'pending'` OR it is younger than 5 minutes (`Date.now() -
existingRequest.timestamp < 300000`; on a future timestamp JS compares
a negative number and `Nat` subtraction yields `0`, both below the
window, so the models agree). -/
def isActiveRecently (now : Nat) (active : AList RequestRecord) (key : String) : Bool :=
  match AList.lookup active key with
  | some existing =>
    existing.status == "pending" || decide (now - existing.timestamp < 300000)
  | none => false

/-- `execute` of `requestreplace` —
src/src/commands/knowledgebase.js lines 243-495. -/
def submitRequest (cfg : SubmitConfig) (inp : SubmitInput) (env : SubmitEnv)
    (now : Nat) (st : CoordState) (rl : RateMap) : SubmitResult :=
  -- lines 250-263: exactly one of file / image_url
  if inp.fileAttachment.isNone && inp.imageUrl.isNone then
    { outcome := .missingMedia, state := st, rl := rl, messages := [] }
  else if inp.fileAttachment.isSome && inp.imageUrl.isSome then
    { outcome := .bothMedia, state := st, rl := rl, messages := [] }
  else
    -- lines 266-272: rate limit (the check itself may prune the map)
    let rlRes := RateLimiter.isRateLimited now rl inp.userId
    if rlRes.1 then
      { outcome := .rateLimited, state := st, rl := rlRes.2, messages := [] }
    else
      let rl1 := rlRes.2
      -- line 275: numeric post id
      if !isNumericStr inp.postId then
        { outcome := .invalidPostId, state := st, rl := rl1, messages := [] }
      else
        -- lines 280-292: file validations
        let fileOk : Option SubmitOutcome :=
          match inp.fileAttachment with
          | some att =>
            if !validateFileSize att then some .badFileSize
            else if !validateFileType att then some .badFileType
            else none
          | none => none
        match fileOk with
        | some bad => { outcome := bad, state := st, rl := rl1, messages := [] }
        | none =>
          -- lines 295-314: image-URL validation
          if inp.imageUrl.isSome && !env.urlValid then
            { outcome := .badImageUrl, state := st, rl := rl1, messages := [] }
          else if !cfg.channelConfigured then
            -- lines 317-319
            { outcome := .channelNotConfigured, state := st, rl := rl1, messages := [] }
          else
            -- lines 321-331: duplicate-request window
            let key := requestKey inp.postId inp.userId
            if isActiveRecently now st.active key then
              { outcome := .alreadyActive, state := st, rl := rl1, messages := [] }
            else if LockSet.hasLock st.locks inp.postId then
              -- lines 334-339
              { outcome := .lockHeld, state := st, rl := rl1, messages := [] }
            else
              -- line 342: acquire the lock, then the try block
              submitLocked cfg inp env now st rl1 (LockSet.add st.locks inp.postId)

/-! ## Moderator decision handlers

`processAccept` (src/src/utils/handleDecline.js lines 308-547),
`processDecline` (lines 147-301) and `handleUndeletePost` (lines
622-841).  A shared environment records each external call's result.

A scoping fact that matters for the error paths: in `processAccept` and
`processDecline` the destructuring `const [, postId, userId] =
customId.split(':')` happens INSIDE the `try` block, so the `catch`
blocks' `if (postId && requestLocks.has(postId))` reads an identifier
that is not in scope there: the intended lock release never runs (the
resulting ReferenceError aborts the handler).  In `handleUndeletePost`,
`postId` is a function parameter, so its `catch` does release the
lock.  The `errorCaught` cases below reflect this. -/

/-- `value.match(/\((\d+)\)/)` capture used at lines 753-759: the
first `(` followed by one or more digits and a `)`; the scan resumes
one character later on failure, as the regex engine does. -/
def extractParenId : List Char → Option String
  | [] => none
  | '(' :: rest =>
    (match rest.span Char.isDigit with
     | (d :: ds, ')' :: _) => some (String.mk (d :: ds))
     | _ => extractParenId rest)
  | _ :: rest => extractParenId rest

structure ModEnv where
  /-- `config.channels && config.channels.replacementRequestChannel` truthy. -/
  channelConfigured : Bool
  /-- `interaction.client.channels.fetch(...)` result. -/
  channel : ChanOutcome
  /-- `channel.messages.fetch({ limit: 100 })` contents (the moderation
  channel's recent history). -/
  msgs : List Msg
  /-- `channel.messages.fetch({ before: originalMessage.id, limit: 5 })`. -/
  msgsBefore : List Msg
  /-- `interaction.client.user.id`. -/
  botId : String
  /-- `fetchPost.getPost(postId)` in `processAccept` (line 420): a
  throw, or a result whose `post` is read with optional chaining. -/
  fetchPost : Except Unit (Option Post)
  /-- `replacePost.processReplacement(...)`: throws on failure (its own
  `catch` rethrows), otherwise resolves with `success: true`. -/
  replaceRes : Except Unit Unit
  /-- `replacePost.handlePostUndeletion(postId).success` (it catches
  internally and reports a boolean, treating unknown-message errors as a
  soft success with a warning). -/
  undeleteOk : Bool
  /-- `sendDeclineDM` / `sendAcceptDM` result (these catch internally). -/
  dmOk : Bool
  /-- `postDeclineNotification` / `postAcceptanceNotification` result. -/
  notifOk : Bool
  /-- `originalMessage.delete()` succeeded (outer cleanup `try`). -/
  deleteMainOk : Bool
  /-- replacement-image message deletion succeeded (inner `try`). -/
  deleteReplOk : Bool
  /-- original-image message deletion succeeded (inner `try`). -/
  deleteOrigOk : Bool
deriving Repr

inductive ModOutcome where
  | channelNotConfigured
  | channelNotFound
  /-- "Could not find the original request message" — an error reply;
  no lock is touched on this branch. -/
  | originalNotFound
  /-- "Could not find the replacement file" — an error reply; no lock
  is touched on this branch. -/
  | replacementNotFound
  | imageUrlMissing
  /-- `processAccept` deleted-post branch (lines 423-446). -/
  | undeletePrompt
  | accepted
  | declined
  | undeleteAccepted
  | errorCaught
deriving Repr, DecidableEq

/-- Externally visible mutations performed by a handler. -/
inductive Action where
  /-- `originalMessage.edit` adding the `undelete_post` button (lines 434-438). -/
  | editedMessage (msgId : String) (undeleteButtonPostId : String)
  | submittedReplacement (postId imageUrl : String)
  | undeletedPost (postId : String)
  | sentDM (userId : String)
  | postedNotice
  | deletedMessage (msgId : String)
deriving Repr, DecidableEq

structure ModResult where
  outcome : ModOutcome
  state : CoordState
  actions : List Action
deriving Repr, DecidableEq

/-- `postResult.post?.flags?.deleted` truthiness (line 421): optional
chaining yields `undefined` (falsy) on a missing post. -/
def postOptDeleted : Option Post → Bool
  | some p => p.deleted
  | none => false

/-- Cleanup block shared in shape by accept (lines 486-529) and decline
(lines 233-283): delete the request message, then best-effort delete
the replacement-image and original-image messages, then remove the
registry entry and release the lock.  Everything after the request
message deletion sits in the same `try`, so a failure there (modelled
by `deleteMainOk = false`) skips the deregistration/unlock as well; the
inner deletions have their own `catch` and cannot do that. -/
def cleanupAndRelease (env : ModEnv) (postId userId : String)
    (origId : String) (replMsg : Option Msg) (st : CoordState)
    (acts : List Action) : CoordState × List Action :=
  if env.deleteMainOk then
    let acts := acts ++ [.deletedMessage origId]
    let acts := acts ++
      (match replMsg with
       | some m => if env.deleteReplOk then [.deletedMessage m.id] else []
       | none => [])
    let acts := acts ++
      (match env.msgs.find? (matchesOriginalImageMessage env.botId postId) with
       | some m => if env.deleteOrigOk then [.deletedMessage m.id] else []
       | none => [])
    ({ active := AList.del st.active (requestKey postId userId)
       locks := LockSet.del st.locks postId }, acts)
  else
    (st, acts)

/-- `processAccept` — src/src/utils/handleDecline.js lines 308-547. -/
def processAccept (env : ModEnv) (customId : String) (st : CoordState) : ModResult :=
  let parts := strSplit customId ':' 
  let postId := parts.getD 1 ""
  let userId := parts.getD 2 ""
  if !env.channelConfigured then
    { outcome := .channelNotConfigured, state := st, actions := [] }
  else
    match env.channel with
    | .threw =>
      -- catch at 533-546; `postId` is out of scope there, nothing released
      { outcome := .errorCaught, state := st, actions := [] }
    | .nullish =>
      { outcome := .channelNotFound, state := st, actions := [] }
    | .ok _ =>
      match findOriginalMessage postId env.msgs with
      | none =>
        -- lines 363-369: error reply, lock untouched
        { outcome := .originalNotFound, state := st, actions := [] }
      | some orig =>
        match findReplacementMessage env.botId postId env.msgs env.msgsBefore with
        | none =>
          { outcome := .replacementNotFound, state := st, actions := [] }
        | some repl =>
          match (repl.embeds.head?).bind (·.imageUrl) with
          | none =>
            { outcome := .imageUrlMissing, state := st, actions := [] }
          | some imageUrl =>
            match env.fetchPost with
            | .error _ =>
              { outcome := .errorCaught, state := st, actions := [] }
            | .ok postOpt =>
              if postOptDeleted postOpt then
                -- lines 423-446: no replacement; edit in the undelete
                -- button; registry and locks untouched
                { outcome := .undeletePrompt, state := st
                  actions := [.editedMessage orig.id postId] }
              else
                match env.replaceRes with
                | .error _ =>
                  { outcome := .errorCaught, state := st, actions := [] }
                | .ok _ =>
                  let acts :=
                    [Action.submittedReplacement postId imageUrl]
                    ++ (if env.dmOk then [Action.sentDM userId] else [])
                    ++ (if env.notifOk then [Action.postedNotice] else [])
                  let (st2, acts2) :=
                    cleanupAndRelease env postId userId orig.id (some repl) st acts
                  { outcome := .accepted, state := st2, actions := acts2 }

/-- `processDecline` — src/src/utils/handleDecline.js lines 147-301.
Note its replacement-image search (lines 240-245) uses only the
new-footer convention, without the `before` fallback. -/
def processDecline (env : ModEnv) (customId : String) (st : CoordState) : ModResult :=
  let parts := strSplit customId ':' 
  let postId := parts.getD 1 ""
  let userId := parts.getD 2 ""
  if !env.channelConfigured then
    { outcome := .channelNotConfigured, state := st, actions := [] }
  else
    match env.channel with
    | .threw =>
      -- catch at 287-300; `postId` is out of scope there, nothing released
      { outcome := .errorCaught, state := st, actions := [] }
    | .nullish =>
      { outcome := .channelNotFound, state := st, actions := [] }
    | .ok _ =>
      match findOriginalMessage postId env.msgs with
      | none =>
        { outcome := .originalNotFound, state := st, actions := [] }
      | some orig =>
        let acts :=
          (if env.dmOk then [Action.sentDM userId] else [])
          ++ (if env.notifOk then [Action.postedNotice] else [])
        let replMsg := env.msgs.find? (matchesReplacementMessage env.botId postId)
        let (st2, acts2) := cleanupAndRelease env postId userId orig.id replMsg st acts
        { outcome := .declined, state := st2, actions := acts2 }

/-- `handleUndeletePost` — src/src/utils/handleDecline.js lines
622-841.  `postId` is a parameter here, so the `catch` (lines 827-840)
does release the lock; the success path, however, performs only message
cleanup: it never removes the registry entry nor releases the lock. -/
def handleUndeletePost (env : ModEnv) (postId _moderatorId : String)
    (st : CoordState) : ModResult :=
  if !env.channelConfigured then
    { outcome := .channelNotConfigured, state := st, actions := [] }
  else
    match env.channel with
    | .threw =>
      { outcome := .errorCaught
        state := { active := st.active, locks := LockSet.del st.locks postId }
        actions := [] }
    | .nullish =>
      { outcome := .channelNotFound, state := st, actions := [] }
    | .ok _ =>
      match findOriginalMessage postId env.msgs with
      | none =>
        { outcome := .originalNotFound, state := st, actions := [] }
      | some orig =>
        -- lines 682-686: undelete, throwing on a reported failure
        if !env.undeleteOk then
          { outcome := .errorCaught
            state := { active := st.active, locks := LockSet.del st.locks postId }
            actions := [] }
        else
          let acts0 := [Action.undeletedPost postId]
          match findReplacementMessage env.botId postId env.msgs env.msgsBefore with
          | none =>
            -- lines 710-715: error reply, lock untouched
            { outcome := .replacementNotFound, state := st, actions := acts0 }
          | some repl =>
            match (repl.embeds.head?).bind (·.imageUrl) with
            | none =>
              { outcome := .imageUrlMissing, state := st, actions := acts0 }
            | some imageUrl =>
              match env.replaceRes with
              | .error _ =>
                { outcome := .errorCaught
                  state := { active := st.active, locks := LockSet.del st.locks postId }
                  actions := acts0 }
              | .ok _ =>
                -- lines 752-768: recover the requester id from the
                -- `Requested by` embed field
                match orig.embeds.head? with
                | none =>
                  -- `originalMessage.embeds[0].fields` throws; caught
                  { outcome := .errorCaught
                    state := { active := st.active, locks := LockSet.del st.locks postId }
                    actions := acts0 ++ [.submittedReplacement postId imageUrl] }
                | some origEmbed =>
                  let originalUserId : Option String :=
                    match origEmbed.fields.find? (fun f => f.name == "Requested by") with
                    | some f => extractParenId f.value.toList
                    | none => none
                  let acts :=
                    acts0 ++ [Action.submittedReplacement postId imageUrl]
                    ++ (match originalUserId with
                        | some uid => if env.dmOk then [Action.sentDM uid] else []
                        | none => [])
                    ++ (if env.notifOk then [Action.postedNotice] else [])
                  -- cleanup (lines 790-823): message deletions only —
                  -- no registry removal, no lock release
                  let acts :=
                    if env.deleteMainOk then
                      let acts := acts ++ [Action.deletedMessage orig.id]
                      let acts := acts ++
                        (if env.deleteReplOk then [Action.deletedMessage repl.id] else [])
                      acts ++
                        (match env.msgs.find? (matchesOriginalImageMessage env.botId postId) with
                         | some m => if env.deleteOrigOk then [Action.deletedMessage m.id] else []
                         | none => [])
                    else acts
                  { outcome := .undeleteAccepted, state := st, actions := acts }

/-! ## DText formatter

`formatDText`, src/src/utils/dtextFormatter.js lines 8-72: a pipeline
of 15 global regex replacements, a trim, and 2 more replacements.  Each
`String.prototype.replace(re, ...)` with the `g` flag scans left to
right, replaces the leftmost match, and resumes after it; the driver
`globalReplace` below does exactly that, with one matcher per source
regex.  Matchers return the replacement text and the remainder after
the consumed (always non-empty) match.

JavaScript character classes are modelled on their ASCII portion:
`\s` as space, tab, CR, LF, VT, FF (the Unicode space code points play
no role in any input considered here), and `.` without the `s` flag as
"anything but CR/LF". -/

/-- JS `.` without the `s` flag (ASCII portion). -/
def jsDot (c : Char) : Bool := !(c == '\n' || c == '\r')

/-- Consume a literal. -/
def litP : List Char → List Char → Option (List Char)
  | [], s => some s
  | _ :: _, [] => none
  | p :: ps, c :: cs => if p == c then litP ps cs else none

/-- Greedy character-class run: `takeWhile` / `dropWhile` split. -/
def spanP (p : Char → Bool) (s : List Char) : List Char × List Char :=
  (s.takeWhile p, s.dropWhile p)

/-- Lazy `(.*?)` followed by a literal: the shortest middle.  `dotAll`
selects the `s` flag. -/
def lazyUpTo (close : List Char) (dotAll : Bool) : List Char → Option (List Char × List Char)
  | [] => (litP close []).map (fun rest => (([] : List Char), rest))
  | c :: cs =>
    match litP close (c :: cs) with
    | some rest => some ([], rest)
    | none =>
      if dotAll || jsDot c then
        (lazyUpTo close dotAll cs).map (fun pr => (c :: pr.1, pr.2))
      else none

/-- One step of a `g`-flagged `replace`: try the matcher at every
position left to right.  All matchers consume at least one character,
so fuel equal to the input length suffices. -/
def grLoop (f : List Char → Option (List Char × List Char)) : Nat → List Char → List Char
  | 0, s => s
  | _ + 1, [] => []
  | fuel + 1, c :: cs =>
    match f (c :: cs) with
    | some (rep, rest) => rep ++ grLoop f fuel rest
    | none => c :: grLoop f fuel cs

def globalReplace (f : List Char → Option (List Char × List Char)) (s : List Char) : List Char :=
  grLoop f s.length s

/-- Matcher for `[open](.*?)[close]`-shaped tag regexes (source lines
14-17 and 42-54), with the replacement `pre ++ $1 ++ suf`. -/
def tagMatcher (openT closeT : List Char) (dotAll : Bool) (pre suf : List Char)
    (s : List Char) : Option (List Char × List Char) :=
  (litP openT s).bind fun r1 =>
  (lazyUpTo closeT dotAll r1).map fun pr => (pre ++ pr.1 ++ suf, pr.2)

/-- `text.replace(/\*\*/g, '').replace(/\*/g, '').replace(/_/g, '')`
— the link-text cleanup callback (lines 23, 30, 37). -/
def stripStarPairs : List Char → List Char
  | '*' :: '*' :: rest => stripStarPairs rest
  | c :: rest => c :: stripStarPairs rest
  | [] => []

def cleanLinkText (t : List Char) : List Char :=
  ((stripStarPairs t).filter (fun c => !(c == '*'))).filter (fun c => !(c == '_'))

/-- `` `[${cleanText}](${url})` ``. -/
def mkMdLink (txt url : List Char) : List Char :=
  '[' :: (txt ++ (']' :: '(' :: (url ++ [')'])))

/-- Line 21: `/\"([^"]+)\":([^>\)\s]+)\)/g`.  Both classes exclude
their closing characters, so the greedy runs are deterministic. -/
def mLinkParen (s : List Char) : Option (List Char × List Char) :=
  match s with
  | '"' :: r1 =>
    (match spanP (fun c => !(c == '"')) r1 with
     | ([], _) => none
     | (t :: ts, r2) =>
       match r2 with
       | '"' :: ':' :: r3 =>
         (match spanP (fun c => !(c == '>' || c == ')' || jsWs c)) r3 with
          | ([], _) => none
          | (u :: us, r4) =>
            match r4 with
            | ')' :: r5 => some (mkMdLink (cleanLinkText (t :: ts)) (u :: us), r5)
            | _ => none)
       | _ => none)
  | _ => none

/-- Line 28: `/\"([^"]+)\":([^>\)\s]+)$/g` — anchored at the end of
the string. -/
def mLinkEos (s : List Char) : Option (List Char × List Char) :=
  match s with
  | '"' :: r1 =>
    (match spanP (fun c => !(c == '"')) r1 with
     | ([], _) => none
     | (t :: ts, r2) =>
       match r2 with
       | '"' :: ':' :: r3 =>
         (match spanP (fun c => !(c == '>' || c == ')' || jsWs c)) r3 with
          | ([], _) => none
          | (u :: us, r4) =>
            match r4 with
            | [] => some (mkMdLink (cleanLinkText (t :: ts)) (u :: us), [])
            | _ => none)
       | _ => none)
  | _ => none

/-- Line 35: `/\"([^"]+)\":([^>\s]+)(?=\s|$)/g` — a lookahead,
which consumes nothing. -/
def mLinkBasic (s : List Char) : Option (List Char × List Char) :=
  match s with
  | '"' :: r1 =>
    (match spanP (fun c => !(c == '"')) r1 with
     | ([], _) => none
     | (t :: ts, r2) =>
       match r2 with
       | '"' :: ':' :: r3 =>
         (match spanP (fun c => !(c == '>' || jsWs c)) r3 with
          | ([], _) => none
          | (u :: us, r4) =>
            match r4 with
            | [] => some (mkMdLink (cleanLinkText (t :: ts)) (u :: us), [])
            | c :: _ =>
              if jsWs c then some (mkMdLink (cleanLinkText (t :: ts)) (u :: us), r4)
              else none)
       | _ => none)
  | _ => none

/-- Line 48: `/\[\/?(tr|td)\]/g` (a failed `/` alternative cannot be
rescued by dropping the optional `/`, since `/` is not `t`). -/
def mTrTdBody : List Char → Option (List Char)
  | 't' :: 'r' :: ']' :: rest => some rest
  | 't' :: 'd' :: ']' :: rest => some rest
  | _ => none

def mTrTd (s : List Char) : Option (List Char × List Char) :=
  match s with
  | '[' :: '/' :: r2 => (mTrTdBody r2).map (fun rest => (([] : List Char), rest))
  | '[' :: r1 => (mTrTdBody r1).map (fun rest => (([] : List Char), rest))
  | _ => none

/-- Line 58: `/(\[([^\]]+)\]\s*\()\/(users|posts)([^\)]*)(\))/g`
replaced by `` `[$2](${baseUrl}/$3$4)` `` (the `\s*` of group 1 is not
re-emitted). -/
def mRelative (baseUrl : List Char) (s : List Char) : Option (List Char × List Char) :=
  match s with
  | '[' :: r1 =>
    (match spanP (fun c => !(c == ']')) r1 with
     | ([], _) => none
     | (n :: ns, r2) =>
       match r2 with
       | ']' :: r3 =>
         let r4 := (spanP jsWs r3).2
         match r4 with
         | '(' :: '/' :: r5 =>
           let seg : Option (List Char × List Char) :=
             match litP ['u','s','e','r','s'] r5 with
             | some r6 => some (['u','s','e','r','s'], r6)
             | none =>
               match litP ['p','o','s','t','s'] r5 with
               | some r6 => some (['p','o','s','t','s'], r6)
               | none => none
           (match seg with
            | none => none
            | some (sg, r6) =>
              let (tl, r7) := spanP (fun c => !(c == ')')) r6
              match r7 with
              | ')' :: r8 =>
                some ('[' :: (n :: ns) ++ (']' :: '(' :: (baseUrl ++ ('/' :: (sg ++ tl ++ [')'])))), r8)
              | _ => none)
         | _ => none
       | _ => none)
  | _ => none

/-- Line 61: `/(https?:\/\/[^\s]+)/g` wrapped as `<$1>`. -/
def mUrl (s : List Char) : Option (List Char × List Char) :=
  let body : List Char → List Char → Option (List Char × List Char) := fun pre r =>
    match spanP (fun c => !(jsWs c)) r with
    | ([], _) => none
    | (u :: us, rest) => some ('<' :: (pre ++ (u :: us) ++ ['>']), rest)
  match litP "https://".toList s with
  | some r => body "https://".toList r
  | none =>
    match litP "http://".toList s with
    | some r => body "http://".toList r
    | none => none

/-- Line 64: `/\n\s*\n\s*\n/g` collapsed to `\n\n`.  The two
`\s*` groups backtrack from their greedy maxima, as the engine does. -/
def mBlank (s : List Char) : Option (List Char × List Char) :=
  match s with
  | '\n' :: r1 =>
    let w1 := (r1.takeWhile jsWs).length
    (List.range (w1 + 1)).reverse.findSome? (fun k1 =>
      match r1.drop k1 with
      | '\n' :: r2 =>
        let w2 := (r2.takeWhile jsWs).length
        (List.range (w2 + 1)).reverse.findSome? (fun k2 =>
          match r2.drop k2 with
          | '\n' :: r3 => some (['\n', '\n'], r3)
          | _ => none)
      | _ => none)
  | _ => none

/-- Line 68: `/(\]\()([^)]+)(\))\>/g` → `$1$2$3`. -/
def mTrail1 (s : List Char) : Option (List Char × List Char) :=
  match s with
  | ']' :: '(' :: r1 =>
    (match spanP (fun c => !(c == ')')) r1 with
     | ([], _) => none
     | (u :: us, r2) =>
       match r2 with
       | ')' :: '>' :: r3 => some (']' :: '(' :: ((u :: us) ++ [')']), r3)
       | _ => none)
  | _ => none

/-- Line 69: `/(\[([^\]]+)\]\()([^)]+)(\))\>/g` → `$1$3$4`. -/
def mTrail2 (s : List Char) : Option (List Char × List Char) :=
  match s with
  | '[' :: r1 =>
    (match spanP (fun c => !(c == ']')) r1 with
     | ([], _) => none
     | (n :: ns, r2) =>
       match r2 with
       | ']' :: '(' :: r3 =>
         (match spanP (fun c => !(c == ')')) r3 with
          | ([], _) => none
          | (u :: us, r4) =>
            match r4 with
            | ')' :: '>' :: r5 =>
              some ('[' :: ((n :: ns) ++ (']' :: '(' :: ((u :: us) ++ [')']))), r5)
            | _ => none)
       | _ => none)
  | _ => none

/-- `formatDText` — src/src/utils/dtextFormatter.js lines 8-72, the
replacement passes applied in source order.  `devmode` selects the
`config.devmode` base URL of line 57. -/
def formatDText (devmode : Bool) (dtext : String) : String :=
  if dtext == "" then ""
  else
    let baseUrl := (if devmode then "http://localhost:3001" else "https://e6ai.net").toList
    let f := dtext.toList
    let f := globalReplace (tagMatcher "[i]".toList "[/i]".toList false "*".toList "*".toList) f
    let f := globalReplace (tagMatcher "[b]".toList "[/b]".toList false "**".toList "**".toList) f
    let f := globalReplace (tagMatcher "[i][b]".toList "[/b][/i]".toList false "***".toList "***".toList) f
    let f := globalReplace (tagMatcher "[b][i]".toList "[/i][/b]".toList false "***".toList "***".toList) f
    let f := globalReplace mLinkParen f
    let f := globalReplace mLinkEos f
    let f := globalReplace mLinkBasic f
    let f := globalReplace (tagMatcher "[quote]".toList "[/quote]".toList true [] []) f
    let f := globalReplace (tagMatcher "[table]".toList "[/table]".toList true [] []) f
    let f := globalReplace mTrTd f
    let f := globalReplace (tagMatcher "[code]".toList "[/code]".toList true [] []) f
    let f := globalReplace (tagMatcher "[spoiler]".toList "[/spoiler]".toList true [] []) f
    let f := globalReplace (mRelative baseUrl) f
    let f := globalReplace mUrl f
    let f := globalReplace mBlank f
    let f := jsTrim f
    let f := globalReplace mTrail1 f
    let f := globalReplace mTrail2 f
    String.mk f

/-! ## Helper lemmas about the stale sweep -/

theorem sweep_locks_subset {now : Nat} {st : CoordState} {p : String}
    (h : p ∈ (cleanupStaleLocks now st).locks) : p ∈ sweepLocksPhase st.active st.locks := by
  unfold cleanupStaleLocks at h
  exact (List.mem_filter.mp h).1

theorem sweep_removes_orphan (now : Nat) (st : CoordState) (p : String)
    (hnone : (List.any st.active (fun kv => strStarts kv.1 (p ++ ":"))) = false) :
    p ∉ (cleanupStaleLocks now st).locks := by
  intro hmem
  have h1 := sweep_locks_subset hmem
  unfold sweepLocksPhase at h1
  have h2 := (List.mem_filter.mp h1).2
  rw [hnone] at h2
  exact Bool.false_ne_true h2

theorem sweep_removes_stale (now : Nat) (st : CoordState) (kv : String × RequestRecord)
    (hmem : kv ∈ st.active) (hstale : isStaleEntry now kv = true) :
    kv ∉ (cleanupStaleLocks now st).active ∧
    keyPost kv.1 ∉ (cleanupStaleLocks now st).locks := by
  constructor
  · intro hin
    unfold cleanupStaleLocks at hin
    have h2 := (List.mem_filter.mp hin).2
    rw [hstale] at h2
    simp at h2
  · intro hin
    unfold cleanupStaleLocks at hin
    have h2 := (List.mem_filter.mp hin).2
    have hany : (List.any (List.filter (isStaleEntry now) st.active)
        (fun x => keyPost x.1 == keyPost kv.1)) = true := by
      apply List.any_eq_true.mpr
      exact ⟨kv, List.mem_filter.mpr ⟨hmem, hstale⟩, by simp⟩
    rw [hany] at h2
    simp at h2

/-- C6: the stale sweep (a) releases every lock whose post id has no
registry entry keyed `` `${postId}:` `` and (b) removes every registry
entry older than the 15-minute threshold, also releasing the lock for
that entry's post.  (The 5-minute `setInterval` at
src/src/utils/handleDecline.js line 900 schedules this function; the
property proved is about what each run does.) -/
theorem cleanup_sweeps_orphans_and_stale (now : Nat) (st : CoordState) :
    (∀ p : String,
       (List.any st.active (fun kv => strStarts kv.1 (p ++ ":"))) = false →
       p ∉ (cleanupStaleLocks now st).locks)
    ∧ (∀ kv : String × RequestRecord, kv ∈ st.active →
         now - kv.2.timestamp > staleThresholdMs →
         kv ∉ (cleanupStaleLocks now st).active ∧
         keyPost kv.1 ∉ (cleanupStaleLocks now st).locks) := by
  refine ⟨fun p hnone => sweep_removes_orphan now st p hnone, fun kv hmem hold => ?_⟩
  exact sweep_removes_stale now st kv hmem (by unfold isStaleEntry; exact decide_eq_true hold)

/-- Witness for C6 at a concrete state: lock `"7"` is orphaned, the
entry for `"5:9"` is 16 minutes old while the sweep runs. -/
theorem cleanup_sweeps_orphans_and_stale_witness :
    ("7" : String) ∉ (cleanupStaleLocks 960000
        { active := [("5:9", ⟨"m", "r", none, 0, "pending", "c"⟩)], locks := ["7", "5"] }).locks
    ∧ ("5:9", (⟨"m", "r", none, 0, "pending", "c"⟩ : RequestRecord)) ∉
        (cleanupStaleLocks 960000
        { active := [("5:9", ⟨"m", "r", none, 0, "pending", "c"⟩)], locks := ["7", "5"] }).active
    ∧ ("5" : String) ∉ (cleanupStaleLocks 960000
        { active := [("5:9", ⟨"m", "r", none, 0, "pending", "c"⟩)], locks := ["7", "5"] }).locks := by
  have h := cleanup_sweeps_orphans_and_stale 960000
    { active := [("5:9", ⟨"m", "r", none, 0, "pending", "c"⟩)], locks := ["7", "5"] }
  have h1 := h.1 "7" (by decide)
  have h2 := h.2 ("5:9", ⟨"m", "r", none, 0, "pending", "c"⟩) (by decide) (by decide)
  have e : keyPost "5:9" = "5" := by decide
  exact ⟨h1, h2.1, e ▸ h2.2⟩

/-! ## C9: rate limiter -/

/-- C9: `setRateLimit(user, 600000)` makes `isRateLimited(user)` true
immediately; once the stored expiry has passed it is false; and a
reload keeps exactly the entries whose expiry lies strictly in the
future. -/
theorem rateLimiter_cooldown_spec (now later : Nat) (m : RateMap) (u : String)
    (hpass : now + 600000 ≤ later) :
    (RateLimiter.isRateLimited now (RateLimiter.setRateLimit now m u 600000) u).1 = true
    ∧ (RateLimiter.isRateLimited later (RateLimiter.setRateLimit now m u 600000) u).1 = false
    ∧ ∀ (stored : List (String × Nat)) (t : Nat) (kv : String × Nat),
        kv ∈ RateLimiter.loadRateLimits t stored ↔ kv ∈ stored ∧ kv.2 > t := by
  refine ⟨?_, ?_, ?_⟩
  · unfold RateLimiter.isRateLimited RateLimiter.setRateLimit
    rw [AList.lookup_set_self]
    simp
  · unfold RateLimiter.isRateLimited RateLimiter.setRateLimit
    rw [AList.lookup_set_self]
    simp only [if_pos hpass]
  · intro stored t kv
    unfold RateLimiter.loadRateLimits
    constructor
    · intro hkv
      have := List.mem_filter.mp hkv
      exact ⟨this.1, of_decide_eq_true this.2⟩
    · intro ⟨h1, h2⟩
      exact List.mem_filter.mpr ⟨h1, decide_eq_true h2⟩

/-- Witness for C9: user `"42"` limited at the moment of the call,
clear 10 minutes later, and a reload at `t = 10` keeps the live entry
and drops the expired one. -/
theorem rateLimiter_cooldown_spec_witness :
    (RateLimiter.isRateLimited 5 (RateLimiter.setRateLimit 5 [] "42" 600000) "42").1 = true
    ∧ (RateLimiter.isRateLimited 600005 (RateLimiter.setRateLimit 5 [] "42" 600000) "42").1 = false
    ∧ (("a", 20) ∈ RateLimiter.loadRateLimits 10 [("a", 20), ("b", 10)]
        ↔ ("a", 20) ∈ [("a", (20 : Nat)), ("b", 10)] ∧ (20 : Nat) > 10) := by
  have h := rateLimiter_cooldown_spec 5 600005 [] "42" (by decide)
  exact ⟨h.1, h.2.1, h.2.2 [("a", 20), ("b", 10)] 10 ("a", 20)⟩

/-! ## C5: the undelete button bypasses the moderator allow-list -/

theorem listStarts_head {a b : Char} {as bs s : List Char}
    (h1 : listStarts (a :: as) s = true) (h2 : listStarts (b :: bs) s = true) :
    a = b := by
  cases s with
  | nil => simp [listStarts] at h1
  | cons c cs =>
    simp only [listStarts, Bool.and_eq_true, beq_iff_eq] at h1 h2
    exact h1.1.trans h2.1.symm

theorem starts_disjoint {a b : Char} {as bs : List Char} (s : List Char)
    (hab : a ≠ b) (h1 : listStarts (a :: as) s = true) :
    listStarts (b :: bs) s = false := by
  cases h2 : listStarts (b :: bs) s with
  | false => rfl
  | true => exact absurd (listStarts_head h1 h2) hab

theorem undelete_not_decline {cid : String}
    (h : strStarts cid "undelete_post:" = true) :
    strStarts cid "decline_request:" = false := by
  unfold strStarts at h ⊢
  rw [show "undelete_post:".toList = 'u' :: "ndelete_post:".toList from rfl] at h
  rw [show "decline_request:".toList = 'd' :: "ecline_request:".toList from rfl]
  exact starts_disjoint _ (by decide) h

theorem undelete_not_accept {cid : String}
    (h : strStarts cid "undelete_post:" = true) :
    strStarts cid "accept_request:" = false := by
  unfold strStarts at h ⊢
  rw [show "undelete_post:".toList = 'u' :: "ndelete_post:".toList from rfl] at h
  rw [show "accept_request:".toList = 'a' :: "ccept_request:".toList from rfl]
  exact starts_disjoint _ (by decide) h

/-- C5: for every button whose custom id begins with `undelete_post:`,
the router dispatches `handleUndeletePost` for every user and every
allow-list — the authorization rejection applies only to ids beginning
with `decline_request:` or `accept_request:`, for which a non-empty
allow-list without the user yields the unauthorized reply. -/
theorem undelete_button_bypasses_allowlist :
    (∀ (ids : List String) (userId cid : String),
       strStarts cid "undelete_post:" = true →
       (routeButton ids userId cid).isUndeleteDispatch = true)
    ∧ (∀ (ids : List String) (userId cid : String),
       ids ≠ [] → ids.contains userId = false →
       (strStarts cid "decline_request:" = true ∨ strStarts cid "accept_request:" = true) →
       routeButton ids userId cid = .unauthorizedReply) := by
  constructor
  · intro ids userId cid hu
    have hd := undelete_not_decline hu
    have ha := undelete_not_accept hu
    unfold routeButton
    rw [hd, ha, hu]
    simp [RouteAction.isUndeleteDispatch]
  · intro ids userId cid hne hcont hpre
    have hemp : ids.isEmpty = false := by
      cases ids with
      | nil => exact absurd rfl hne
      | cons x xs => rfl
    unfold routeButton
    rw [hemp, hcont]
    rcases hpre with hd | ha
    · rw [hd]; rfl
    · rw [ha]
      have : (strStarts cid "decline_request:" || true) = true := by
        simp
      rw [this]
      rfl

/-- Witness for C5: a non-moderator presses the undelete button — it
dispatches; the same user pressing accept is rejected. -/
theorem undelete_button_bypasses_allowlist_witness :
    (routeButton ["111"] "999" "undelete_post:500:77").isUndeleteDispatch = true
    ∧ routeButton ["111"] "999" "accept_request:500:42" = .unauthorizedReply := by
  refine ⟨undelete_button_bypasses_allowlist.1 ["111"] "999" "undelete_post:500:77" (by decide),
    undelete_button_bypasses_allowlist.2 ["111"] "999" "accept_request:500:42"
      (by decide) (by decide) (Or.inr (by decide))⟩

/-! ## Helper lemmas about the submit pipeline -/

theorem submitLocked_outcome_ne (cfg : SubmitConfig) (inp : SubmitInput) (env : SubmitEnv)
    (now : Nat) (st : CoordState) (rl1 : RateMap) (locks1 : LockSet) :
    (submitLocked cfg inp env now st rl1 locks1).outcome ≠ SubmitOutcome.alreadyActive := by
  unfold submitLocked
  obtain ⟨uv, fetch, chan, sr, so, sm, bid⟩ := env
  cases fetch <;> cases chan <;> cases sr <;> cases so <;> cases sm <;>
    simp_all <;> split <;> simp_all

/-- When every validation up to the channel check passes,
`submitRequest` reduces to the duplicate-window check, the lock check,
and the locked body. -/
theorem submitRequest_reduces
    (cfg : SubmitConfig) (inp : SubmitInput) (env : SubmitEnv)
    (now : Nat) (st : CoordState) (rl : RateMap)
    (hmedia1 : (inp.fileAttachment.isNone && inp.imageUrl.isNone) = false)
    (hmedia2 : (inp.fileAttachment.isSome && inp.imageUrl.isSome) = false)
    (hrate : (RateLimiter.isRateLimited now rl inp.userId).1 = false)
    (hnum : isNumericStr inp.postId = true)
    (hfile : (match inp.fileAttachment with
              | some att => validateFileSize att && validateFileType att
              | none => true) = true)
    (hurl : (inp.imageUrl.isSome && !env.urlValid) = false)
    (hchan : cfg.channelConfigured = true) :
    submitRequest cfg inp env now st rl =
      (if isActiveRecently now st.active (requestKey inp.postId inp.userId) then
        ({ outcome := .alreadyActive, state := st,
           rl := (RateLimiter.isRateLimited now rl inp.userId).2, messages := [] } : SubmitResult)
       else if LockSet.hasLock st.locks inp.postId then
        { outcome := .lockHeld, state := st,
          rl := (RateLimiter.isRateLimited now rl inp.userId).2, messages := [] }
       else submitLocked cfg inp env now st (RateLimiter.isRateLimited now rl inp.userId).2
              (LockSet.add st.locks inp.postId)) := by
  have hfileOk : (match inp.fileAttachment with
      | some att => if !validateFileSize att then some SubmitOutcome.badFileSize
                    else if !validateFileType att then some SubmitOutcome.badFileType else none
      | none => none) = none := by
    cases hatt : inp.fileAttachment with
    | none => rfl
    | some att =>
      rw [hatt] at hfile
      simp only [Bool.and_eq_true] at hfile
      simp [hfile.1, hfile.2]
  unfold submitRequest
  rw [hmedia1, hmedia2]
  simp only [Bool.false_eq_true, if_false]
  rw [hrate, hnum]
  simp only [Bool.false_eq_true, if_false, Bool.not_true, if_true]
  rw [hfileOk, hurl, hchan]
  simp

/-! ## C7: the duplicate-request window -/

/-- C7: with every earlier validation passing, a submit is rejected as
already active exactly when a registry record exists for
`` `${postId}:${userId}` `` whose status is `pending` or whose
timestamp is under 5 minutes (300000 ms) old — and that rejection
leaves the coordinator state untouched and sends no messages. -/
theorem submit_already_active_iff
    (cfg : SubmitConfig) (inp : SubmitInput) (env : SubmitEnv)
    (now : Nat) (st : CoordState) (rl : RateMap)
    (hmedia1 : (inp.fileAttachment.isNone && inp.imageUrl.isNone) = false)
    (hmedia2 : (inp.fileAttachment.isSome && inp.imageUrl.isSome) = false)
    (hrate : (RateLimiter.isRateLimited now rl inp.userId).1 = false)
    (hnum : isNumericStr inp.postId = true)
    (hfile : (match inp.fileAttachment with
              | some att => validateFileSize att && validateFileType att
              | none => true) = true)
    (hurl : (inp.imageUrl.isSome && !env.urlValid) = false)
    (hchan : cfg.channelConfigured = true) :
    ((submitRequest cfg inp env now st rl).outcome = .alreadyActive ↔
      ∃ r, AList.lookup st.active (requestKey inp.postId inp.userId) = some r ∧
        (r.status = "pending" ∨ now - r.timestamp < 300000))
    ∧ ((submitRequest cfg inp env now st rl).outcome = .alreadyActive →
        (submitRequest cfg inp env now st rl).state = st ∧
        (submitRequest cfg inp env now st rl).messages = []) := by
  have hred := submitRequest_reduces cfg inp env now st rl
    hmedia1 hmedia2 hrate hnum hfile hurl hchan
  have hiff : isActiveRecently now st.active (requestKey inp.postId inp.userId) = true ↔
      ∃ r, AList.lookup st.active (requestKey inp.postId inp.userId) = some r ∧
        (r.status = "pending" ∨ now - r.timestamp < 300000) := by
    unfold isActiveRecently
    cases hl : AList.lookup st.active (requestKey inp.postId inp.userId) with
    | none => simp
    | some r =>
      simp only [Bool.or_eq_true, beq_iff_eq, decide_eq_true_eq]
      constructor
      · intro h
        exact ⟨r, rfl, h⟩
      · intro ⟨r2, hr2, hcond⟩
        cases hr2
        exact hcond
  rw [hred]
  by_cases hact : isActiveRecently now st.active (requestKey inp.postId inp.userId) = true
  · simp only [hact, if_true]
    constructor
    · simpa using hiff.mp hact
    · intro _
      refine ⟨?_, ?_⟩ <;> trivial
  · have hact2 : isActiveRecently now st.active (requestKey inp.postId inp.userId) = false :=
      Bool.not_eq_true _ ▸ (Bool.eq_false_iff.mpr (fun h => hact h))
    simp only [hact2, Bool.false_eq_true, if_false]
    have hne : ∀ res : SubmitResult,
        res = (if LockSet.hasLock st.locks inp.postId then
          ({ outcome := .lockHeld, state := st,
             rl := (RateLimiter.isRateLimited now rl inp.userId).2, messages := [] } : SubmitResult)
         else submitLocked cfg inp env now st (RateLimiter.isRateLimited now rl inp.userId).2
                (LockSet.add st.locks inp.postId)) → res.outcome ≠ .alreadyActive := by
      intro res hres
      by_cases hl : LockSet.hasLock st.locks inp.postId
      · rw [hl] at hres
        simp at hres
        rw [hres]
        simp
      · rw [Bool.eq_false_iff.mpr hl] at hres
        simp at hres
        rw [hres]
        exact submitLocked_outcome_ne cfg inp env now st _ _
    constructor
    · constructor
      · intro h
        exact absurd h (hne _ rfl)
      · intro hex
        exact absurd (hiff.mpr hex) (by rw [hact2]; simp)
    · intro h
      exact absurd h (hne _ rfl)

/-- A submit environment whose external results are never consulted on
the rejection paths. -/
def idleSubmitEnv : SubmitEnv :=
  { urlValid := true, fetch := .threw, channel := .threw
    sendReplacementId := .error (), sendOriginalId := .error ()
    sendMainId := .error (), botId := "bot" }

def plainSubmitCfg : SubmitConfig :=
  { channelConfigured := true, tagsToFilter := [], DiscordIDs := ["111"] }

def fileSubmitInput : SubmitInput :=
  { userId := "42", displayName := "Alice", postId := "500", reason := "bad crop"
    fileAttachment := some { url := "https://cdn.discordapp.com/a.png", name := "a.png", size := 100 }
    imageUrl := none }

/-- The state after a resolved-but-recent request: status no longer
`pending`, 200 s old at `now = 200100`. -/
def resolvedRecentState : CoordState :=
  { active := [("500:42", ⟨"m1", "m2", none, 100, "resolved", "chan"⟩)], locks := [] }

/-- Witness for C7: a record with `status = "resolved"` only 200
seconds old still blocks the re-submit, with no state change and no
messages. -/
theorem submit_already_active_iff_witness :
    (submitRequest plainSubmitCfg fileSubmitInput idleSubmitEnv 200100 resolvedRecentState []).outcome
        = .alreadyActive
    ∧ (submitRequest plainSubmitCfg fileSubmitInput idleSubmitEnv 200100 resolvedRecentState []).state
        = resolvedRecentState
    ∧ (submitRequest plainSubmitCfg fileSubmitInput idleSubmitEnv 200100 resolvedRecentState []).messages
        = [] := by
  have h := submit_already_active_iff plainSubmitCfg fileSubmitInput idleSubmitEnv
    200100 resolvedRecentState []
    (by decide) (by decide) (by decide) (by decide) (by decide) (by decide) (by decide)
  have hout := h.1.mpr ⟨⟨"m1", "m2", none, 100, "resolved", "chan"⟩, by decide,
    Or.inr (by decide)⟩
  exact ⟨hout, (h.2 hout).1, (h.2 hout).2⟩

/-! ## Shared concrete fixtures for the moderator handlers -/

/-- The main request message as submit creates it for post 500 by user 42. -/
def origMsg500 : Msg :=
  { id := "m1", authorId := "bot", content := ""
    embeds := [{ title := some "🔄 Replacement Request", description := none
                 url := none, imageUrl := none, footerText := none
                 fields := [⟨"Post ID", "500"⟩, ⟨"Requested by", "Alice (42)"⟩] }] }

/-- The replacement-image message for post 500. -/
def replMsg500 : Msg :=
  { id := "m2", authorId := "bot", content := ""
    embeds := [{ title := some "REPLACEMENT IMAGE", description := none
                 url := none, imageUrl := some "https://cdn.discordapp.com/new.png"
                 footerText := some "For Post ID: 500", fields := [] }] }

def goodPost : Post :=
  { fileUrl := some "https://static1.e6ai.net/orig.png", deleted := false
    pending := false, rating := "e", tagsGeneral := ["fur"] }

/-- An environment in which every external call succeeds. -/
def goodModEnv : ModEnv :=
  { channelConfigured := true, channel := .ok "chan"
    msgs := [origMsg500, replMsg500], msgsBefore := [], botId := "bot"
    fetchPost := .ok (some goodPost), replaceRes := .ok (), undeleteOk := true
    dmOk := true, notifOk := true
    deleteMainOk := true, deleteReplOk := true, deleteOrigOk := true }

def pendingRec : RequestRecord := ⟨"m1", "m2", none, 1000, "pending", "chan"⟩

/-! ## C1: lock-based mutual exclusion -/

/-- With the channel configured and resolvable, the request and
replacement messages located, the post fetched non-deleted and the
replacement call succeeding, `processAccept` runs to acceptance — it
consults no lock at any point. -/
theorem accept_good_env_accepts
    (env : ModEnv) (customId : String) (st : CoordState) (orig repl : Msg)
    (u : String) (postOpt : Option Post) (ch : String)
    (h1 : env.channelConfigured = true)
    (h2 : env.channel = .ok ch)
    (h3 : findOriginalMessage ((strSplit customId ':').getD 1 "") env.msgs = some orig)
    (h4 : findReplacementMessage env.botId ((strSplit customId ':').getD 1 "")
            env.msgs env.msgsBefore = some repl)
    (h5 : (repl.embeds.head?).bind (·.imageUrl) = some u)
    (h6 : env.fetchPost = .ok postOpt)
    (h7 : postOptDeleted postOpt = false)
    (h8 : env.replaceRes = .ok ()) :
    (processAccept env customId st).outcome = .accepted := by
  unfold processAccept
  simp only [h1, h2, h3, h4, h5, h6, h7, h8, Bool.not_true, Bool.false_eq_true, if_false]

/-- With the channel configured and resolvable and the request message
located, `processDecline` runs to its decline resolution — it, too,
consults no lock at any point. -/
theorem decline_good_env_declines
    (env : ModEnv) (customId : String) (st : CoordState) (orig : Msg) (ch : String)
    (h1 : env.channelConfigured = true)
    (h2 : env.channel = .ok ch)
    (h3 : findOriginalMessage ((strSplit customId ':').getD 1 "") env.msgs = some orig) :
    (processDecline env customId st).outcome = .declined := by
  unfold processDecline
  simp only [h1, h2, h3, Bool.not_true, Bool.false_eq_true, if_false]

/-- Counterexample to C1: with the lock for post 500 held (an operation
in flight for that post) and the registry entry pending, neither an
accept nor a decline for the same post is rejected with a conflict
error — the accept proceeds, submits the replacement to the content API
and mutates the state, and the decline proceeds and mutates the state
as well. -/
theorem accept_decline_proceed_while_post_locked :
    ((processAccept goodModEnv "accept_request:500:42"
        ⟨[("500:42", pendingRec)], ["500"]⟩).outcome = .accepted
    ∧ Action.submittedReplacement "500" "https://cdn.discordapp.com/new.png" ∈
        (processAccept goodModEnv "accept_request:500:42"
          ⟨[("500:42", pendingRec)], ["500"]⟩).actions
    ∧ (processAccept goodModEnv "accept_request:500:42"
        ⟨[("500:42", pendingRec)], ["500"]⟩).state
        ≠ ⟨[("500:42", pendingRec)], ["500"]⟩)
    ∧ ((processDecline goodModEnv "decline_reason:500:42"
        ⟨[("500:42", pendingRec)], ["500"]⟩).outcome = .declined
    ∧ (processDecline goodModEnv "decline_reason:500:42"
        ⟨[("500:42", pendingRec)], ["500"]⟩).state
        ≠ ⟨[("500:42", pendingRec)], ["500"]⟩) := by decide

/-- C1 amended: per-post mutual exclusion is enforced by the lock only
between submits — a submit finding the lock held is rejected with the
conflict reply and performs no mutation (no state change, no messages);
accept and decline perform no lock check and run to their accept /
decline resolutions even while the lock for the same post is held (the
counterexample exhibits a concrete locked run in which both mutate
state). -/
theorem lock_exclusion_submit_only :
    (∀ (cfg : SubmitConfig) (inp : SubmitInput) (env : SubmitEnv) (now : Nat)
       (st : CoordState) (rl : RateMap),
       (inp.fileAttachment.isNone && inp.imageUrl.isNone) = false →
       (inp.fileAttachment.isSome && inp.imageUrl.isSome) = false →
       (RateLimiter.isRateLimited now rl inp.userId).1 = false →
       isNumericStr inp.postId = true →
       (match inp.fileAttachment with
        | some att => validateFileSize att && validateFileType att
        | none => true) = true →
       (inp.imageUrl.isSome && !env.urlValid) = false →
       cfg.channelConfigured = true →
       isActiveRecently now st.active (requestKey inp.postId inp.userId) = false →
       LockSet.hasLock st.locks inp.postId = true →
       (submitRequest cfg inp env now st rl).outcome = .lockHeld ∧
       (submitRequest cfg inp env now st rl).state = st ∧
       (submitRequest cfg inp env now st rl).messages = [])
    ∧ (∀ (env : ModEnv) (customId : String) (st : CoordState) (orig repl : Msg)
        (u : String) (postOpt : Option Post) (ch : String),
        env.channelConfigured = true →
        env.channel = .ok ch →
        findOriginalMessage ((strSplit customId ':').getD 1 "") env.msgs = some orig →
        findReplacementMessage env.botId ((strSplit customId ':').getD 1 "")
          env.msgs env.msgsBefore = some repl →
        (repl.embeds.head?).bind (·.imageUrl) = some u →
        env.fetchPost = .ok postOpt →
        postOptDeleted postOpt = false →
        env.replaceRes = .ok () →
        LockSet.hasLock st.locks ((strSplit customId ':').getD 1 "") = true →
        (processAccept env customId st).outcome = .accepted)
    ∧ (∀ (env : ModEnv) (customId : String) (st : CoordState) (orig : Msg) (ch : String),
        env.channelConfigured = true →
        env.channel = .ok ch →
        findOriginalMessage ((strSplit customId ':').getD 1 "") env.msgs = some orig →
        LockSet.hasLock st.locks ((strSplit customId ':').getD 1 "") = true →
        (processDecline env customId st).outcome = .declined) := by
  refine ⟨?_, ?_, ?_⟩
  · intro cfg inp env now st rl hm1 hm2 hrate hnum hfile hurl hchan hact hlock
    rw [submitRequest_reduces cfg inp env now st rl hm1 hm2 hrate hnum hfile hurl hchan]
    rw [hact, hlock]
    simp
  · intro env customId st orig repl u postOpt ch h1 h2 h3 h4 h5 h6 h7 h8 _
    exact accept_good_env_accepts env customId st orig repl u postOpt ch
      h1 h2 h3 h4 h5 h6 h7 h8
  · intro env customId st orig ch h1 h2 h3 _
    exact decline_good_env_declines env customId st orig ch h1 h2 h3

/-- Witness for the amended C1: submit for locked post 500 is rejected
without mutation; accept and decline for the same locked post run to
acceptance / decline. -/
theorem lock_exclusion_submit_only_witness :
    ((submitRequest plainSubmitCfg fileSubmitInput idleSubmitEnv 0 ⟨[], ["500"]⟩ []).outcome
        = .lockHeld
    ∧ (submitRequest plainSubmitCfg fileSubmitInput idleSubmitEnv 0 ⟨[], ["500"]⟩ []).state
        = ⟨[], ["500"]⟩
    ∧ (submitRequest plainSubmitCfg fileSubmitInput idleSubmitEnv 0 ⟨[], ["500"]⟩ []).messages
        = [])
    ∧ (processAccept goodModEnv "accept_request:500:42" ⟨[], ["500"]⟩).outcome = .accepted
    ∧ (processDecline goodModEnv "decline_reason:500:42" ⟨[], ["500"]⟩).outcome = .declined := by
  refine ⟨lock_exclusion_submit_only.1 plainSubmitCfg fileSubmitInput idleSubmitEnv 0
      ⟨[], ["500"]⟩ [] (by decide) (by decide) (by decide) (by decide) (by decide)
      (by decide) (by decide) (by decide) (by decide),
    lock_exclusion_submit_only.2.1 goodModEnv "accept_request:500:42" ⟨[], ["500"]⟩
      origMsg500 replMsg500 "https://cdn.discordapp.com/new.png" (some goodPost) "chan"
      (by decide) rfl (by decide) (by decide) (by decide) rfl
      (by decide) rfl (by decide),
    lock_exclusion_submit_only.2.2 goodModEnv "decline_reason:500:42" ⟨[], ["500"]⟩
      origMsg500 "chan" (by decide) rfl (by decide) (by decide)⟩

/-! ## C2: lock release on failure branches -/

theorem hasLock_add_self (s : LockSet) (x : String) :
    LockSet.hasLock (LockSet.add s x) x = true := by
  unfold LockSet.add
  by_cases h : LockSet.hasLock s x
  · simpa [h]
  · have h2 : LockSet.hasLock s x = false := Bool.eq_false_iff.mpr h
    simp only [h2, Bool.false_eq_true, if_false]
    unfold LockSet.hasLock
    rw [List.any_append]
    simp

/-- An environment in which the history scan finds nothing. -/
def emptyChanEnv : ModEnv :=
  { channelConfigured := true, channel := .ok "chan"
    msgs := [], msgsBefore := [], botId := "bot"
    fetchPost := .error (), replaceRes := .error (), undeleteOk := false
    dmOk := false, notifOk := false
    deleteMainOk := false, deleteReplOk := false, deleteOrigOk := false }

/-- Counterexample to C2: the accept branch that cannot re-locate the
original request message surfaces its error reply WITHOUT releasing the
post's lock — the lock for post 500 is still held afterwards. -/
theorem accept_missing_message_keeps_lock :
    (processAccept emptyChanEnv "accept_request:500:42"
        ⟨[("500:42", pendingRec)], ["500"]⟩).outcome = .originalNotFound
    ∧ "500" ∈ (processAccept emptyChanEnv "accept_request:500:42"
        ⟨[("500:42", pendingRec)], ["500"]⟩).state.locks := by decide

/-- C2 amended: only errors THROWN inside submit's `try` release the
lock in its `catch`; the non-exception failure returns do not — the
submit branches for a null post and for an unresolvable moderation
channel return their error with the lock still held, and the accept,
decline, and undelete branches for a missing original request message
return their error with the coordinator state (locks included)
untouched. -/
theorem lock_release_only_in_catch :
    (∀ (cfg : SubmitConfig) (inp : SubmitInput) (env : SubmitEnv) (now : Nat)
       (st : CoordState) (rl : RateMap),
       (inp.fileAttachment.isNone && inp.imageUrl.isNone) = false →
       (inp.fileAttachment.isSome && inp.imageUrl.isSome) = false →
       (RateLimiter.isRateLimited now rl inp.userId).1 = false →
       isNumericStr inp.postId = true →
       (match inp.fileAttachment with
        | some att => validateFileSize att && validateFileType att
        | none => true) = true →
       (inp.imageUrl.isSome && !env.urlValid) = false →
       cfg.channelConfigured = true →
       isActiveRecently now st.active (requestKey inp.postId inp.userId) = false →
       LockSet.hasLock st.locks inp.postId = false →
       (env.fetch = .threw →
         (submitRequest cfg inp env now st rl).outcome = .errorCaught ∧
         LockSet.hasLock (submitRequest cfg inp env now st rl).state.locks inp.postId = false) ∧
       (env.fetch = .nullish →
         (submitRequest cfg inp env now st rl).outcome = .postNotFound ∧
         LockSet.hasLock (submitRequest cfg inp env now st rl).state.locks inp.postId = true) ∧
       (∀ post : Post, env.fetch = .ok post → env.channel = .nullish →
         (submitRequest cfg inp env now st rl).outcome = .channelNotFound ∧
         LockSet.hasLock (submitRequest cfg inp env now st rl).state.locks inp.postId = true))
    ∧ (∀ (env : ModEnv) (customId : String) (st : CoordState) (ch : String),
        env.channelConfigured = true →
        env.channel = .ok ch →
        findOriginalMessage ((strSplit customId ':').getD 1 "") env.msgs = none →
        processAccept env customId st = ⟨.originalNotFound, st, []⟩)
    ∧ (∀ (env : ModEnv) (customId : String) (st : CoordState) (ch : String),
        env.channelConfigured = true →
        env.channel = .ok ch →
        findOriginalMessage ((strSplit customId ':').getD 1 "") env.msgs = none →
        processDecline env customId st = ⟨.originalNotFound, st, []⟩)
    ∧ (∀ (env : ModEnv) (postId moderatorId : String) (st : CoordState) (ch : String),
        env.channelConfigured = true →
        env.channel = .ok ch →
        findOriginalMessage postId env.msgs = none →
        handleUndeletePost env postId moderatorId st = ⟨.originalNotFound, st, []⟩) := by
  refine ⟨?_, ?_, ?_, ?_⟩
  · intro cfg inp env now st rl hm1 hm2 hrate hnum hfile hurl hchan hact hlock
    have hred := submitRequest_reduces cfg inp env now st rl hm1 hm2 hrate hnum hfile hurl hchan
    rw [hact, hlock] at hred
    simp only [Bool.false_eq_true, if_false] at hred
    refine ⟨?_, ?_, ?_⟩
    · intro hthrew
      rw [hred]
      unfold submitLocked
      rw [hthrew]
      exact ⟨rfl, LockSet.hasLock_del_self _ _⟩
    · intro hnullp
      rw [hred]
      unfold submitLocked
      rw [hnullp]
      exact ⟨rfl, hasLock_add_self st.locks inp.postId⟩
    · intro post hok hnull
      rw [hred]
      unfold submitLocked
      rw [hok, hnull]
      exact ⟨rfl, hasLock_add_self st.locks inp.postId⟩
  · intro env customId st ch h1 h2 h3
    unfold processAccept
    simp only [h1, h2, h3, Bool.not_true, Bool.false_eq_true, if_false]
  · intro env customId st ch h1 h2 h3
    unfold processDecline
    simp only [h1, h2, h3, Bool.not_true, Bool.false_eq_true, if_false]
  · intro env postId moderatorId st ch h1 h2 h3
    unfold handleUndeletePost
    simp only [h1, h2, h3, Bool.not_true, Bool.false_eq_true, if_false]

/-- Witness for the amended C2 at concrete inputs: a thrown fetch
releases the lock; a null post and a nullish channel keep it; the
accept, decline, and undelete missing-message branches leave the
locked state untouched. -/
theorem lock_release_only_in_catch_witness :
    ((submitRequest plainSubmitCfg fileSubmitInput idleSubmitEnv 0 ⟨[], []⟩ []).outcome
        = .errorCaught
    ∧ LockSet.hasLock (submitRequest plainSubmitCfg fileSubmitInput idleSubmitEnv 0
        ⟨[], []⟩ []).state.locks "500" = false)
    ∧ ((submitRequest plainSubmitCfg fileSubmitInput
          { idleSubmitEnv with fetch := .nullish } 0 ⟨[], []⟩ []).outcome
        = .postNotFound
    ∧ LockSet.hasLock (submitRequest plainSubmitCfg fileSubmitInput
          { idleSubmitEnv with fetch := .nullish } 0 ⟨[], []⟩ []).state.locks "500" = true)
    ∧ ((submitRequest plainSubmitCfg fileSubmitInput
          { idleSubmitEnv with fetch := .ok goodPost, channel := .nullish } 0 ⟨[], []⟩ []).outcome
        = .channelNotFound
    ∧ LockSet.hasLock (submitRequest plainSubmitCfg fileSubmitInput
          { idleSubmitEnv with fetch := .ok goodPost, channel := .nullish } 0
          ⟨[], []⟩ []).state.locks "500" = true)
    ∧ processAccept emptyChanEnv "accept_request:500:42" ⟨[], ["500"]⟩
        = ⟨.originalNotFound, ⟨[], ["500"]⟩, []⟩
    ∧ processDecline emptyChanEnv "decline_reason:500:42" ⟨[], ["500"]⟩
        = ⟨.originalNotFound, ⟨[], ["500"]⟩, []⟩
    ∧ handleUndeletePost emptyChanEnv "500" "111" ⟨[], ["500"]⟩
        = ⟨.originalNotFound, ⟨[], ["500"]⟩, []⟩ := by
  have h := lock_release_only_in_catch
  have h1 := (h.1 plainSubmitCfg fileSubmitInput idleSubmitEnv 0 ⟨[], []⟩ []
    (by decide) (by decide) (by decide) (by decide) (by decide) (by decide)
    (by decide) (by decide) (by decide)).1 rfl
  have h2 := (h.1 plainSubmitCfg fileSubmitInput
    { idleSubmitEnv with fetch := .nullish } 0 ⟨[], []⟩ []
    (by decide) (by decide) (by decide) (by decide) (by decide) (by decide)
    (by decide) (by decide) (by decide)).2.1 rfl
  have h3 := (h.1 plainSubmitCfg fileSubmitInput
    { idleSubmitEnv with fetch := .ok goodPost, channel := .nullish } 0 ⟨[], []⟩ []
    (by decide) (by decide) (by decide) (by decide) (by decide) (by decide)
    (by decide) (by decide) (by decide)).2.2 goodPost rfl rfl
  have h4 := h.2.1 emptyChanEnv "accept_request:500:42" ⟨[], ["500"]⟩ "chan"
    (by decide) rfl (by decide)
  have h5 := h.2.2.1 emptyChanEnv "decline_reason:500:42" ⟨[], ["500"]⟩ "chan"
    (by decide) rfl (by decide)
  have h6 := h.2.2.2 emptyChanEnv "500" "111" ⟨[], ["500"]⟩ "chan"
    (by decide) rfl (by decide)
  exact ⟨h1, h2, h3, h4, h5, h6⟩

/-! ## C3: terminal transitions and the registry/lock pair -/

/-- Counterexample to C3: a fully successful undelete-then-accept run
(undeletion, replacement, message cleanup all succeed) leaves BOTH the
registry entry for `"500:42"` and the lock for post 500 in place — the
success path of `handleUndeletePost` never deregisters or unlocks. -/
theorem undelete_accept_leaves_registry_and_lock :
    (handleUndeletePost goodModEnv "500" "111"
        ⟨[("500:42", pendingRec)], ["500"]⟩).outcome = .undeleteAccepted
    ∧ (handleUndeletePost goodModEnv "500" "111"
        ⟨[("500:42", pendingRec)], ["500"]⟩).state
        = ⟨[("500:42", pendingRec)], ["500"]⟩ := by decide

/-- C3 amended: accept and decline completing (including their message
cleanup, whose first deletion gates the deregistration) remove the
registry entry and release the lock, and the stale sweep removes a
stale entry together with its post's lock; but undelete-then-accept
completing removes neither (see the counterexample), leaving the pair
to the sweep. -/
theorem terminal_transitions_clear_pair :
    (∀ (env : ModEnv) (customId : String) (st : CoordState) (orig repl : Msg)
       (u : String) (postOpt : Option Post) (ch : String),
       env.channelConfigured = true →
       env.channel = .ok ch →
       findOriginalMessage ((strSplit customId ':').getD 1 "") env.msgs = some orig →
       findReplacementMessage env.botId ((strSplit customId ':').getD 1 "")
         env.msgs env.msgsBefore = some repl →
       (repl.embeds.head?).bind (·.imageUrl) = some u →
       env.fetchPost = .ok postOpt →
       postOptDeleted postOpt = false →
       env.replaceRes = .ok () →
       env.deleteMainOk = true →
       (processAccept env customId st).outcome = .accepted ∧
       AList.hasKey (processAccept env customId st).state.active
         (requestKey ((strSplit customId ':').getD 1 "") ((strSplit customId ':').getD 2 ""))
         = false ∧
       LockSet.hasLock (processAccept env customId st).state.locks
         ((strSplit customId ':').getD 1 "") = false)
    ∧ (∀ (env : ModEnv) (customId : String) (st : CoordState) (orig : Msg) (ch : String),
       env.channelConfigured = true →
       env.channel = .ok ch →
       findOriginalMessage ((strSplit customId ':').getD 1 "") env.msgs = some orig →
       env.deleteMainOk = true →
       (processDecline env customId st).outcome = .declined ∧
       AList.hasKey (processDecline env customId st).state.active
         (requestKey ((strSplit customId ':').getD 1 "") ((strSplit customId ':').getD 2 ""))
         = false ∧
       LockSet.hasLock (processDecline env customId st).state.locks
         ((strSplit customId ':').getD 1 "") = false)
    ∧ (∀ (now : Nat) (st : CoordState) (kv : String × RequestRecord),
       kv ∈ st.active → now - kv.2.timestamp > staleThresholdMs →
       kv ∉ (cleanupStaleLocks now st).active ∧
       keyPost kv.1 ∉ (cleanupStaleLocks now st).locks) := by
  refine ⟨?_, ?_, ?_⟩
  · intro env customId st orig repl u postOpt ch h1 h2 h3 h4 h5 h6 h7 h8 hdel
    unfold processAccept cleanupAndRelease
    simp only [h1, h2, h3, h4, h5, h6, h7, h8, hdel, Bool.not_true, Bool.false_eq_true,
      if_false, if_true]
    exact ⟨trivial, AList.hasKey_del_self _ _, LockSet.hasLock_del_self _ _⟩
  · intro env customId st orig ch h1 h2 h3 hdel
    unfold processDecline cleanupAndRelease
    simp only [h1, h2, h3, hdel, Bool.not_true, Bool.false_eq_true, if_false, if_true]
    exact ⟨trivial, AList.hasKey_del_self _ _, LockSet.hasLock_del_self _ _⟩
  · intro now st kv hmem hstale
    exact sweep_removes_stale now st kv hmem
      (by unfold isStaleEntry; exact decide_eq_true hstale)

/-- Witness for the amended C3: at the concrete post-500 fixtures, an
accept and a decline both end with the `"500:42"` entry and the `"500"`
lock absent, and a 16-minute-old entry is swept together with its lock. -/
theorem terminal_transitions_clear_pair_witness :
    ((processAccept goodModEnv "accept_request:500:42"
        ⟨[("500:42", pendingRec)], ["500"]⟩).outcome = .accepted
    ∧ AList.hasKey (processAccept goodModEnv "accept_request:500:42"
        ⟨[("500:42", pendingRec)], ["500"]⟩).state.active "500:42" = false
    ∧ LockSet.hasLock (processAccept goodModEnv "accept_request:500:42"
        ⟨[("500:42", pendingRec)], ["500"]⟩).state.locks "500" = false)
    ∧ ((processDecline goodModEnv "decline_reason:500:42"
        ⟨[("500:42", pendingRec)], ["500"]⟩).outcome = .declined
    ∧ AList.hasKey (processDecline goodModEnv "decline_reason:500:42"
        ⟨[("500:42", pendingRec)], ["500"]⟩).state.active "500:42" = false
    ∧ LockSet.hasLock (processDecline goodModEnv "decline_reason:500:42"
        ⟨[("500:42", pendingRec)], ["500"]⟩).state.locks "500" = false)
    ∧ (("500:42", pendingRec) ∉ (cleanupStaleLocks 1000000
        ⟨[("500:42", pendingRec)], ["500"]⟩).active
    ∧ ("500" : String) ∉ (cleanupStaleLocks 1000000
        ⟨[("500:42", pendingRec)], ["500"]⟩).locks) := by
  have h := terminal_transitions_clear_pair
  have h1 := h.1 goodModEnv "accept_request:500:42" ⟨[("500:42", pendingRec)], ["500"]⟩
    origMsg500 replMsg500 "https://cdn.discordapp.com/new.png" (some goodPost) "chan"
    (by decide) rfl (by decide) (by decide) (by decide) rfl (by decide) rfl (by decide)
  have h2 := h.2.1 goodModEnv "decline_reason:500:42" ⟨[("500:42", pendingRec)], ["500"]⟩
    origMsg500 "chan" (by decide) rfl (by decide) (by decide)
  have h3 := h.2.2 1000000 ⟨[("500:42", pendingRec)], ["500"]⟩ ("500:42", pendingRec)
    (by decide) (by decide)
  have e : keyPost "500:42" = "500" := by decide
  exact ⟨h1, h2, h3.1, e ▸ h3.2⟩

/-! ## C4: accepting a deleted post -/

/-- A submit environment in which every send succeeds with the fixture
message ids. -/
def successSubmitEnv : SubmitEnv :=
  { urlValid := true, fetch := .ok goodPost, channel := .ok "chan"
    sendReplacementId := .ok "m2", sendOriginalId := .ok "m0"
    sendMainId := .ok "m1", botId := "bot" }

/-- The coordinator state right after a fully successful submit for
post 500 by user 42 (note: the submit released the lock at its end). -/
def afterSubmitState : CoordState :=
  (submitRequest plainSubmitCfg fileSubmitInput successSubmitEnv 1000 ⟨[], []⟩ []).state

def deletedPost : Post := { goodPost with deleted := true }

def deletedModEnv : ModEnv := { goodModEnv with fetchPost := .ok (some deletedPost) }

/-- Counterexample to C4: after a successful submit, an accept of the
now-deleted post 500 submits no replacement, edits the request message
to carry the undelete control, and keeps the registry entry — but the
post is NOT locked at that point: submit released the lock on success,
and the deleted-post branch touches no lock, so the lock set stays
empty, against the claim's "its post remains locked". -/
theorem accept_deleted_post_not_locked :
    (submitRequest plainSubmitCfg fileSubmitInput successSubmitEnv 1000 ⟨[], []⟩ []).outcome
        = .success
    ∧ AList.hasKey afterSubmitState.active "500:42" = true
    ∧ (processAccept deletedModEnv "accept_request:500:42" afterSubmitState).outcome
        = .undeletePrompt
    ∧ (processAccept deletedModEnv "accept_request:500:42" afterSubmitState).actions
        = [.editedMessage "m1" "500"]
    ∧ AList.hasKey (processAccept deletedModEnv "accept_request:500:42"
        afterSubmitState).state.active "500:42" = true
    ∧ "500" ∉ (processAccept deletedModEnv "accept_request:500:42"
        afterSubmitState).state.locks := by decide

/-- C4 amended: when the fetched post is flagged deleted, the accept
branch submits no replacement, mutates the request message to present
the undelete control, and leaves the coordinator state entirely
unchanged — so the registry entry is still present; the lock table is
merely untouched (the post's lock is not actually held at this stage,
submit having released it on success). -/
theorem accept_deleted_prompts_undelete
    (env : ModEnv) (customId : String) (st : CoordState) (orig repl : Msg)
    (u : String) (postOpt : Option Post) (ch : String)
    (h1 : env.channelConfigured = true)
    (h2 : env.channel = .ok ch)
    (h3 : findOriginalMessage ((strSplit customId ':').getD 1 "") env.msgs = some orig)
    (h4 : findReplacementMessage env.botId ((strSplit customId ':').getD 1 "")
            env.msgs env.msgsBefore = some repl)
    (h5 : (repl.embeds.head?).bind (·.imageUrl) = some u)
    (h6 : env.fetchPost = .ok postOpt)
    (h7 : postOptDeleted postOpt = true) :
    (processAccept env customId st).outcome = .undeletePrompt
    ∧ (processAccept env customId st).state = st
    ∧ (processAccept env customId st).actions
        = [.editedMessage orig.id ((strSplit customId ':').getD 1 "")] := by
  unfold processAccept
  simp only [h1, h2, h3, h4, h5, h6, h7, Bool.not_true, Bool.false_eq_true, if_false, if_true]
  exact ⟨trivial, trivial, trivial⟩

/-- Witness for the amended C4 at the concrete fixtures. -/
theorem accept_deleted_prompts_undelete_witness :
    (processAccept deletedModEnv "accept_request:500:42"
        ⟨[("500:42", pendingRec)], []⟩).outcome = .undeletePrompt
    ∧ (processAccept deletedModEnv "accept_request:500:42"
        ⟨[("500:42", pendingRec)], []⟩).state = ⟨[("500:42", pendingRec)], []⟩
    ∧ (processAccept deletedModEnv "accept_request:500:42"
        ⟨[("500:42", pendingRec)], []⟩).actions = [.editedMessage "m1" "500"] := by
  have h := accept_deleted_prompts_undelete deletedModEnv "accept_request:500:42"
    ⟨[("500:42", pendingRec)], []⟩ origMsg500 replMsg500
    "https://cdn.discordapp.com/new.png" (some deletedPost) "chan"
    (by decide) rfl (by decide) (by decide) (by decide) rfl (by decide)
  exact ⟨h.1, h.2.1, h.2.2⟩

/-! ## C8: filter-tagged posts during submit -/

def spoilerCfg : SubmitConfig :=
  { channelConfigured := true, tagsToFilter := ["fur, scales"], DiscordIDs := ["111"] }

/-- Counterexample to C8: post 500 carries the operator-filtered tag
`fur`, the submit succeeds — and the original-media message is simply
not sent: only the replacement-image and main request messages go out,
and no sent embed references the original media URL at all, let alone
inside a `||`-spoiler marker. -/
theorem submit_filtered_no_spoiler_reference :
    (submitRequest spoilerCfg fileSubmitInput successSubmitEnv 1000 ⟨[], []⟩ []).outcome
        = .success
    ∧ shouldSpoiler spoilerCfg.tagsToFilter goodPost = true
    ∧ (submitRequest spoilerCfg fileSubmitInput successSubmitEnv 1000 ⟨[], []⟩ []).messages.length
        = 2
    ∧ ((submitRequest spoilerCfg fileSubmitInput successSubmitEnv 1000 ⟨[], []⟩ []).messages.all
        (fun m => m.embeds.all (fun e =>
          !(e.title == some "ORIGINAL IMAGE:") && !(e.title == some "ORIGINAL IMAGE (DELETED):")
          && !(e.imageUrl == some "https://static1.e6ai.net/orig.png")
          && !(strIncludes (e.description.getD "") "https://static1.e6ai.net/orig.png")
          && !(strIncludes (e.description.getD "") "||")))) = true := by decide

/-- C8 amended: when the fetched post carries any operator-configured
filter tag, the submit path suppresses the original-media message
entirely — the messages sent are exactly the replacement-image message
and the main request message, with no spoiler-marked URL reference (the
`|| url ||` presentation lives in the separate post-embed builder used
by the view/link commands, not in submit). -/
theorem submit_filtered_suppresses_original
    (cfg : SubmitConfig) (inp : SubmitInput) (env : SubmitEnv)
    (now : Nat) (st : CoordState) (rl : RateMap) (post : Post) (ch rid mid : String)
    (hm1 : (inp.fileAttachment.isNone && inp.imageUrl.isNone) = false)
    (hm2 : (inp.fileAttachment.isSome && inp.imageUrl.isSome) = false)
    (hrate : (RateLimiter.isRateLimited now rl inp.userId).1 = false)
    (hnum : isNumericStr inp.postId = true)
    (hfile : (match inp.fileAttachment with
              | some att => validateFileSize att && validateFileType att
              | none => true) = true)
    (hurl : (inp.imageUrl.isSome && !env.urlValid) = false)
    (hchan : cfg.channelConfigured = true)
    (hact : isActiveRecently now st.active (requestKey inp.postId inp.userId) = false)
    (hlock : LockSet.hasLock st.locks inp.postId = false)
    (hfetch : env.fetch = .ok post)
    (hch : env.channel = .ok ch)
    (hsp : shouldSpoiler cfg.tagsToFilter post = true)
    (hr : env.sendReplacementId = .ok rid)
    (hm : env.sendMainId = .ok mid) :
    (submitRequest cfg inp env now st rl).outcome = .success
    ∧ (submitRequest cfg inp env now st rl).messages =
      [ { id := rid, authorId := env.botId, content := ""
          embeds := [buildReplacementEmbed inp.postId
            (match inp.fileAttachment with
             | some att => "attachment://" ++ att.name
             | none => (inp.imageUrl).getD "")] }
      , { id := mid, authorId := env.botId, content := ""
          embeds := [buildRequestEmbed post inp.postId inp.displayName inp.userId inp.reason] } ] := by
  rw [submitRequest_reduces cfg inp env now st rl hm1 hm2 hrate hnum hfile hurl hchan]
  rw [hact, hlock]
  simp only [Bool.false_eq_true, if_false]
  unfold submitLocked
  simp only [hfetch, hch, hr, hm, hsp, Bool.not_true, Bool.and_false, Bool.false_eq_true,
    if_false]
  simp

/-- Witness for the amended C8 at the concrete fixtures. -/
theorem submit_filtered_suppresses_original_witness :
    (submitRequest spoilerCfg fileSubmitInput successSubmitEnv 1000 ⟨[], []⟩ []).outcome
        = .success
    ∧ (submitRequest spoilerCfg fileSubmitInput successSubmitEnv 1000 ⟨[], []⟩ []).messages =
      [ { id := "m2", authorId := "bot", content := ""
          embeds := [buildReplacementEmbed "500" "attachment://a.png"] }
      , { id := "m1", authorId := "bot", content := ""
          embeds := [buildRequestEmbed goodPost "500" "Alice" "42" "bad crop"] } ] := by
  have h := submit_filtered_suppresses_original spoilerCfg fileSubmitInput successSubmitEnv
    1000 ⟨[], []⟩ [] goodPost "chan" "m2" "m1"
    (by decide) (by decide) (by decide) (by decide) (by decide) (by decide) (by decide)
    (by decide) (by decide) rfl rfl (by decide) rfl rfl
  exact ⟨h.1, h.2.trans (by decide)⟩

/-! ## C10: `formatDText` on DText links -/

/-- Counterexample to C10: on the canonical DText link
`"text":https://e6ai.net`, `formatDText` is NOT idempotent — a second
application changes its own output. -/
theorem formatDText_not_idempotent :
    formatDText false "\"text\":https://e6ai.net" = "[text](<https://e6ai.net)"
    ∧ formatDText false (formatDText false "\"text\":https://e6ai.net")
        ≠ formatDText false "\"text\":https://e6ai.net" := by decide

/-- C10 amended: `formatDText` is not idempotent on link-bearing
input, so repeated embed rebuilding alters the text.  At the
representative DText link `"text":https://e6ai.net`, one application
yields `[text](<https://e6ai.net)` — preserving the visible text and
the target URL as substrings — and, the URL-bracketing pass re-firing
on its own output, the second and third applications yield
`[text](<<https://e6ai.net)` and `[text](<<<https://e6ai.net)`.  (The
preservation and `<`-accumulation facts are asserted at this
representative input; visible text containing `*` or `_` is in general
not preserved, the link-text cleanup stripping those characters.) -/
theorem formatDText_link_preserved_but_drifts :
    strIncludes (formatDText false "\"text\":https://e6ai.net") "text" = true
    ∧ strIncludes (formatDText false "\"text\":https://e6ai.net") "https://e6ai.net" = true
    ∧ formatDText false "\"text\":https://e6ai.net" = "[text](<https://e6ai.net)"
    ∧ formatDText false (formatDText false "\"text\":https://e6ai.net")
        = "[text](<<https://e6ai.net)"
    ∧ formatDText false (formatDText false (formatDText false "\"text\":https://e6ai.net"))
        = "[text](<<<https://e6ai.net)" := by decide

end E6Bot
